import Mathlib

/-!
# PulseForge data pipeline — a shallow embedding in Lean 4

This file embeds the single source file of the repository,
`scripts/fetch_data.py`, and proves properties about it.

Modelling conventions:

* Python numbers are modelled by `ℚ` (exact rational arithmetic).  The source
  manipulates IEEE doubles; all the quantities the theorems below touch are
  far away from rounding ties of the binary representation, so exact decimal
  arithmetic is the faithful idealisation.
* Python's builtin `round` performs banker's rounding (round half to even);
  this is `pyRoundInt` / `pyRound` below.  Python's `int()` truncates toward
  zero; this is `pyInt`.
* JSON values returned by the HTTP transport are modelled by the inductive
  type `JVal`; Python runtime errors (`KeyError`, `IndexError`, `TypeError`,
  `AttributeError`, `ValueError`, `ZeroDivisionError`) are modelled by the
  `Except PyErr` monad, written out with explicit `match`es.
* `datetime.fromtimestamp(ts).strftime("%Y-%m-%d")` is modelled by
  `fromtimestampQ`: CPython's calendar-range check (years 1–9999, raising
  `ValueError`/`OverflowError` outside it, modelled as one `valueError`
  class) followed by `tsToDate`, the standard civil-from-days calendar
  conversion, in UTC (the source uses the machine-local timezone; the
  claims never inspect the text of a date).
* Python's `/` raises `ZeroDivisionError` on a zero denominator; `qdiv`
  models it.  The scoring engine and the trend-confidence ladder divide by
  data-dependent quantities with no guard in the source, so they are
  embedded twice: `compute_pulse_scoreE` / `trendConfidenceE` with the
  raising division, and `compute_pulse_score` / `trendConfidence` as the
  zero-denominator-free path of the same code.  The bridging theorems
  (`compute_pulse_scoreE_eq_ok` and the confidence conjuncts of
  `trendPrediction_spec`) prove the two agree whenever no denominator
  vanishes; theorems quantifying over arbitrary series either use the
  fallible form or carry hypotheses that exclude the zero denominators.
  (Divisions whose denominator the source itself guards — the VIX-direction
  and volume-breadth signals, the SMA divisors 20/50, the weight total —
  cannot raise and are kept as plain rational division.)
-/

namespace PulseForge

/-! ## Python numeric primitives -/

/-- Python `round(q)` (no digits): round half to even. -/
def pyRoundInt (q : ℚ) : ℤ :=
  if q - ⌊q⌋ < 1/2 then ⌊q⌋
  else if 1/2 < q - ⌊q⌋ then ⌊q⌋ + 1
  else if 2 ∣ ⌊q⌋ then ⌊q⌋ else ⌊q⌋ + 1

/-- Python `round(q, n)`: round half to even at `n` decimal digits. -/
def pyRound (q : ℚ) (n : ℕ) : ℚ :=
  (pyRoundInt (q * (10 : ℚ) ^ n) : ℚ) / (10 : ℚ) ^ n

/-- Python `int(q)`: truncation toward zero. -/
def pyInt (q : ℚ) : ℤ :=
  if 0 ≤ q then ⌊q⌋ else ⌈q⌉

theorem pyRoundInt_ge_floor (q : ℚ) : ⌊q⌋ ≤ pyRoundInt q := by
  unfold pyRoundInt
  split
  · exact le_refl _
  · split
    · exact le_of_lt (lt_add_one _)
    · split
      · exact le_refl _
      · exact le_of_lt (lt_add_one _)

theorem pyRoundInt_le_ceil (q : ℚ) : pyRoundInt q ≤ ⌈q⌉ := by
  unfold pyRoundInt
  have hfc : (⌊q⌋ : ℤ) ≤ ⌈q⌉ := Int.floor_le_ceil q
  split
  · exact hfc
  · rename_i h1
    push_neg at h1
    have hlt : (⌊q⌋ : ℚ) < q := by linarith
    have hc1 : ⌊q⌋ + 1 ≤ ⌈q⌉ := Int.lt_ceil.mpr hlt
    split
    · exact hc1
    · split
      · exact hfc
      · exact hc1

theorem pyRound_nonneg {q : ℚ} (n : ℕ) (h : 0 ≤ q) : 0 ≤ pyRound q n := by
  unfold pyRound
  apply div_nonneg _ (by positivity)
  have h0 : (0 : ℤ) ≤ ⌊q * (10 : ℚ) ^ n⌋ := Int.floor_nonneg.mpr (by positivity)
  have := pyRoundInt_ge_floor (q * (10 : ℚ) ^ n)
  exact_mod_cast le_trans h0 this

theorem pyRound_le_of_le {q c : ℚ} (n : ℕ)
    (hcd : (c * (10 : ℚ) ^ n).den = 1) (h : q ≤ c) : pyRound q n ≤ c := by
  unfold pyRound
  rw [div_le_iff₀ (by positivity)]
  have hup : pyRoundInt (q * (10 : ℚ) ^ n) ≤ ⌈q * (10 : ℚ) ^ n⌉ :=
    pyRoundInt_le_ceil _
  have hint : ∃ z : ℤ, (z : ℚ) = c * (10 : ℚ) ^ n :=
    ⟨(c * (10 : ℚ) ^ n).num, by
      rw [← Rat.num_div_den (c * (10 : ℚ) ^ n), hcd]
      norm_num⟩
  obtain ⟨z, hz⟩ := hint
  have hq : q * (10 : ℚ) ^ n ≤ (z : ℚ) := by
    rw [hz]
    exact mul_le_mul_of_nonneg_right h (by positivity)
  have hcz : ⌈q * (10 : ℚ) ^ n⌉ ≤ z := Int.ceil_le.mpr hq
  calc (pyRoundInt (q * (10 : ℚ) ^ n) : ℚ) ≤ (z : ℚ) := by exact_mod_cast le_trans hup hcz
    _ = c * (10 : ℚ) ^ n := hz

theorem pyRound_den_one (q : ℚ) : (pyRound q 1 * 10).den = 1 := by
  unfold pyRound
  have : (pyRoundInt (q * (10 : ℚ) ^ 1) : ℚ) / (10 : ℚ) ^ 1 * 10 =
      (pyRoundInt (q * (10 : ℚ) ^ 1) : ℚ) := by
    field_simp
  rw [this]
  exact Rat.den_intCast _

/-! ## Calendar conversion

`datetime.fromtimestamp(s).strftime("%Y-%m-%d")`, modelled in UTC via the
standard civil-from-days algorithm. -/

/-- Days since 1970-01-01 to a `(year, month, day)` triple. -/
def civilFromDays (z0 : ℤ) : ℤ × ℤ × ℤ :=
  let z := z0 + 719468
  let era := Int.fdiv z 146097
  let doe := z - era * 146097
  let yoe := Int.fdiv (doe - Int.fdiv doe 1460 + Int.fdiv doe 36524 - Int.fdiv doe 146096) 365
  let y := yoe + era * 400
  let doy := doe - (365 * yoe + Int.fdiv yoe 4 - Int.fdiv yoe 100)
  let mp := Int.fdiv (5 * doy + 2) 153
  let d := doy - Int.fdiv (153 * mp + 2) 5 + 1
  let m := mp + (if mp < 10 then 3 else -9)
  (y + (if m ≤ 2 then 1 else 0), m, d)

def pad2 (n : ℤ) : String :=
  if n < 10 then "0" ++ toString n else toString n

/-- Epoch seconds to a `YYYY-MM-DD` string. -/
def tsToDate (q : ℚ) : String :=
  let c := civilFromDays ⌊q / 86400⌋
  toString c.1 ++ "-" ++ pad2 c.2.1 ++ "-" ++ pad2 c.2.2

/-! ## Fixed-point decimal formatting (Python `f"{x:.df}"`) -/

def formatFixed (q : ℚ) (d : ℕ) : String :=
  let r := pyRoundInt (q * (10 : ℚ) ^ d)
  let sign := if r < 0 then "-" else ""
  let n := r.natAbs
  let ip := n / 10 ^ d
  let fp := n % 10 ^ d
  if d = 0 then sign ++ toString ip
  else
    let fs := toString fp
    sign ++ toString ip ++ "." ++ (String.mk (List.replicate (d - fs.length) '0') ++ fs)

/-! ## JSON values and Python runtime-error semantics

`fetch_json` (the transport, outside the core) either fails after retries —
modelled as `none` — or delivers a parsed JSON document, modelled by `JVal`.
Picking a `JVal` apart the way the Python code does can raise; the
exception classes the source can meet are modelled by `PyErr`. -/

inductive JVal where
  | null : JVal
  | bool : Bool → JVal
  | num : ℚ → JVal
  | str : String → JVal
  | arr : List JVal → JVal
  | obj : List (String × JVal) → JVal

inductive PyErr where
  | keyError : String → PyErr
  | indexError : PyErr
  | typeError : PyErr
  | attributeError : PyErr
  /-- `datetime.fromtimestamp` raises `ValueError`/`OverflowError`/`OSError`
  (platform-dependent, modelled as one class) when the timestamp falls
  outside the representable calendar years 1–9999. -/
  | valueError : PyErr
  | zeroDivisionError : PyErr
deriving DecidableEq

/-- Python truthiness of a JSON value (`if data:`). -/
def pyTruthy : JVal → Bool
  | .null => false
  | .bool b => b
  | .num q => q != 0
  | .str s => !s.isEmpty
  | .arr xs => !xs.isEmpty
  | .obj kvs => !kvs.isEmpty

/-- `d[k]` for a string key: `KeyError` on a missing key, `TypeError` when
`d` is not a dict (string/list/number subscripting by a string all raise
`TypeError` in Python). -/
def pySubscript : JVal → String → Except PyErr JVal
  | .obj kvs, k =>
    match kvs.lookup k with
    | some v => .ok v
    | none => .error (.keyError k)
  | _, _ => .error .typeError

/-- `d[i]` for an integer index (the source only uses `[0]`): `IndexError`
past the end of a list, a character for a string, `KeyError` for a dict,
`TypeError` otherwise. -/
def pyIndex : JVal → ℕ → Except PyErr JVal
  | .arr xs, i =>
    match xs.get? i with
    | some v => .ok v
    | none => .error .indexError
  | .str s, i =>
    match s.toList.get? i with
    | some c => .ok (.str (String.mk [c]))
    | none => .error .indexError
  | .obj _, i => .error (.keyError (toString i))
  | _, _ => .error .typeError

/-- `d.get(k, default)`: `AttributeError` when `d` is not a dict. -/
def pyGet : JVal → String → JVal → Except PyErr JVal
  | .obj kvs, k, dflt => .ok ((kvs.lookup k).getD dflt)
  | _, _, _ => .error .attributeError

/-- `for x in d`: lists yield elements, strings their characters, dicts their
keys; everything else raises `TypeError`. -/
def pyElems : JVal → Except PyErr (List JVal)
  | .arr xs => .ok xs
  | .str s => .ok (s.toList.map (fun c => .str (String.mk [c])))
  | .obj kvs => .ok (kvs.map (fun kv => .str kv.1))
  | _ => .error .typeError

/-- Numeric coercion for arithmetic and comparisons; Python `bool` is a
numeric type (`True == 1`), everything non-numeric raises `TypeError`. -/
def pyNum : JVal → Except PyErr ℚ
  | .num q => .ok q
  | .bool b => .ok (if b then 1 else 0)
  | _ => .error .typeError

/-- `j > x` against a number literal. -/
def pyGT (j : JVal) (x : ℚ) : Except PyErr Bool :=
  match pyNum j with
  | .error e => .error e
  | .ok q => .ok (decide (x < q))

/-- `j < x` against a number literal. -/
def pyLT (j : JVal) (x : ℚ) : Except PyErr Bool :=
  match pyNum j with
  | .error e => .error e
  | .ok q => .ok (decide (q < x))

/-- `round(j, n)` on a JSON scalar. -/
def pyRoundJ (j : JVal) (n : ℕ) : Except PyErr ℚ :=
  match pyNum j with
  | .error e => .error e
  | .ok q => .ok (pyRound q n)

/-- `datetime.fromtimestamp(q)` on an already-numeric timestamp, rendered as
the `strftime("%Y-%m-%d")` string.  CPython accepts only timestamps whose
resulting calendar date has year 1–9999 (here in UTC): the instant
`0001-01-01T00:00:00` is epoch second `-62135596800` and the first
unrepresentable instant `10000-01-01T00:00:00` is epoch second
`253402300800`; anything outside `[-62135596800, 253402300800)` raises
(`ValueError`/`OverflowError`/`OSError` depending on magnitude and platform,
all modelled as `valueError`), and none of these classes is listed in
`_yahoo_chart`'s `except` clause. -/
def fromtimestampQ (q : ℚ) : Except PyErr String :=
  if q < -62135596800 ∨ 253402300800 ≤ q then .error .valueError
  else .ok (tsToDate q)

/-- `datetime.fromtimestamp(j)` on a JSON scalar: numeric coercion followed
by the calendar-range check. -/
def pyFromTimestamp (j : JVal) : Except PyErr String :=
  match pyNum j with
  | .error e => .error e
  | .ok q => fromtimestampQ q

/-- Python's `/` on numbers: raises `ZeroDivisionError` when the denominator
is zero, otherwise exact rational division. -/
def qdiv (a b : ℚ) : Except PyErr ℚ :=
  if b = 0 then .error .zeroDivisionError else .ok (a / b)

/-- Error-propagating `map` over a list, mirroring a Python list
comprehension (the first raising element aborts the whole expression). -/
def mapME (f : α → Except PyErr β) : List α → Except PyErr (List β)
  | [] => .ok []
  | a :: as =>
    match f a with
    | .error e => .error e
    | .ok b =>
      match mapME f as with
      | .error e => .error e
      | .ok bs => .ok (b :: bs)

/-! ## The canonical time-series record

The adapters return Python dicts
`{"dates": [...], "values": [...], "volumes": [...]}`, to which `fetch_dxy`
and `fetch_crude_oil` may add `"is_proxy": True`.

(The `values` comprehension in `polygon_aggs` stores each bar's close
verbatim; we coerce to `ℚ` at adapter level, surfacing a non-numeric close
as the `TypeError` Python itself would raise at the first arithmetic use.) -/

structure TimeSeries where
  dates : List String
  values : List ℚ
  volumes : List ℚ
  is_proxy : Bool := false
deriving DecidableEq

/-- `xs[-1]` on a list already known non-empty. -/
def lastD (xs : List ℚ) : ℚ := xs.getLastD 0

/-- `xs[-n:]`. -/
def takeLast (n : ℕ) (xs : List ℚ) : List ℚ := xs.drop (xs.length - n)

/-! ## Provider adapters -/

/-- One element of `polygon_aggs`'s dates comprehension:
`datetime.fromtimestamp(r["t"] / 1000).strftime("%Y-%m-%d")`. -/
def polygonBarDate (r : JVal) : Except PyErr String :=
  match pySubscript r "t" with
  | .error e => .error e
  | .ok t =>
    match pyNum t with          -- `r["t"] / 1000`
    | .error e => .error e
    | .ok tq => fromtimestampQ (tq / 1000)

/-- `polygon_aggs(symbol, days)` after the transport call: `hasKey` models
the `if not POLYGON_KEY: return None` guard, `data` is the transport result
(`none` = failure after retries).  NOTE: there is no `try`/`except` in this
adapter — a malformed response raises out of it. -/
def polygon_aggs (hasKey : Bool) (data : Option JVal) : Except PyErr (Option TimeSeries) :=
  if !hasKey then .ok none else
  match data with
  | none => .ok none
  | some j =>
    -- `if data and data.get("results"):`
    if !pyTruthy j then .ok none else
    match pyGet j "results" .null with
    | .error e => .error e
    | .ok res =>
      if !pyTruthy res then .ok none else
      -- the three comprehensions each iterate `data["results"]`
      match pySubscript j "results" with
      | .error e => .error e
      | .ok res2 =>
        match pyElems res2 with
        | .error e => .error e
        | .ok rs =>
          match mapME polygonBarDate rs with
          | .error e => .error e
          | .ok dates =>
            match mapME (fun r =>
                match pySubscript r "c" with
                | .error e => .error e
                | .ok c => pyNum c) rs with
            | .error e => .error e
            | .ok values =>
              match mapME (fun r =>
                  match pyGet r "v" (.num 0) with   -- `r.get("v", 0)`
                  | .error e => .error e
                  | .ok v => pyNum v) rs with
              | .error e => .error e
              | .ok volumes => .ok (some ⟨dates, values, volumes, false⟩)

/-- The body of `_yahoo_chart`'s loop: for each `(ts, c)` pair, skip `None`
closes, otherwise append the converted date and the close rounded to 4
digits.  An exception aborts the whole accumulation. -/
def yahooCollect : List (JVal × JVal) → List String × List ℚ →
    Except PyErr (List String × List ℚ)
  | [], acc => .ok acc
  | p :: ps, acc =>
    match p.2 with
    | JVal.null => yahooCollect ps acc      -- `if c is not None:` — skip nulls
    | _ =>
      match pyFromTimestamp p.1 with
      | .error e => .error e
      | .ok d =>
        match pyRoundJ p.2 4 with
        | .error e => .error e
        | .ok cq => yahooCollect ps (acc.1 ++ [d], acc.2 ++ [cq])

/-- The `try:` block of `_yahoo_chart`. -/
def yahooTry (j : JVal) : Except PyErr (Option TimeSeries) :=
  match pySubscript j "chart" with
  | .error e => .error e
  | .ok chart =>
    match pySubscript chart "result" with
    | .error e => .error e
    | .ok result =>
      match pyIndex result 0 with
      | .error e => .error e
      | .ok r0 =>
        match pySubscript r0 "timestamp" with
        | .error e => .error e
        | .ok timestamps =>
          match pySubscript r0 "indicators" with
          | .error e => .error e
          | .ok indicators =>
            match pySubscript indicators "quote" with
            | .error e => .error e
            | .ok quote =>
              match pyIndex quote 0 with
              | .error e => .error e
              | .ok q0 =>
                match pySubscript q0 "close" with
                | .error e => .error e
                | .ok closes =>
                  match pyElems timestamps with   -- `zip(timestamps, closes)`
                  | .error e => .error e
                  | .ok tsL =>
                    match pyElems closes with
                    | .error e => .error e
                    | .ok csL =>
                      match yahooCollect (tsL.zip csL) ([], []) with
                      | .error e => .error e
                      | .ok (dates, values) =>
                        if !values.isEmpty then .ok (some ⟨dates, values, [], false⟩)
                        else .ok none

/-- `_yahoo_chart(symbol, days)` after the transport call.  The
`except (KeyError, IndexError, TypeError)` clause turns exactly those three
error classes into `None`. -/
def _yahoo_chart (data : Option JVal) : Except PyErr (Option TimeSeries) :=
  match data with
  | none => .ok none            -- `if not data: return None`
  | some j =>
    if !pyTruthy j then .ok none
    else
      match yahooTry j with
      | .ok r => .ok r
      | .error (.keyError k) => let _ := k; .ok none
      | .error .indexError => .ok none
      | .error .typeError => .ok none
      | .error e => .error e

/-- A Finnhub quote dict, fields in source order.  Values are kept as raw
JSON scalars, as in the source (`"dp"` may be `null`). -/
structure Quote where
  price : JVal
  change : JVal
  change_pct : JVal
  high : JVal
  low : JVal
  openPrice : JVal
  prev_close : JVal

/-- `finnhub_quote(symbol)`: `hasKey` models the `if not FINNHUB_KEY` guard. -/
def finnhub_quote (hasKey : Bool) (data : Option JVal) : Except PyErr (Option Quote) :=
  if !hasKey then .ok none else
  match data with
  | none => .ok none
  | some j =>
    -- `if data and data.get("c") and data["c"] > 0:`
    if !pyTruthy j then .ok none else
    match pyGet j "c" .null with
    | .error e => .error e
    | .ok c =>
      if !pyTruthy c then .ok none else
      match pySubscript j "c" with
      | .error e => .error e
      | .ok cv =>
        match pyGT cv 0 with
        | .error e => .error e
        | .ok b =>
          if !b then .ok none else
          match pySubscript j "c" with
          | .error e => .error e
          | .ok price =>
            match pySubscript j "d" with
            | .error e => .error e
            | .ok chg =>
              match pySubscript j "dp" with
              | .error e => .error e
              | .ok dp =>
                match pySubscript j "h" with
                | .error e => .error e
                | .ok h =>
                  match pySubscript j "l" with
                  | .error e => .error e
                  | .ok l =>
                    match pySubscript j "o" with
                    | .error e => .error e
                    | .ok o =>
                      match pySubscript j "pc" with
                      | .error e => .error e
                      | .ok pc => .ok (some ⟨price, chg, dp, h, l, o, pc⟩)

/-! ## Indicator fetchers (the resolver with its per-indicator fallbacks)

Each fetcher takes the raw transport responses of its sources, in order, and
calls the adapters exactly when the Python control flow does (a source is not
fetched — hence cannot raise — once an earlier one was accepted). -/

/-- `if agg and agg["values"] and agg["values"][-1] > 5:` (VIX). -/
def vixAccept : Option TimeSeries → Bool
  | some a => !a.values.isEmpty && decide (5 < lastD a.values)
  | none => false

/-- `fetch_vix()`: Polygon `I:VIX`, then Yahoo `^VIX`. -/
def fetch_vix (k : Bool) (jPoly jYahoo : Option JVal) : Except PyErr (Option TimeSeries) :=
  match polygon_aggs k jPoly with
  | .error e => .error e
  | .ok agg =>
    if vixAccept agg then .ok agg
    else
      match _yahoo_chart jYahoo with
      | .error e => .error e
      | .ok ydata =>
        if vixAccept ydata then .ok ydata
        else .ok none

/-- `if agg and agg["values"] and agg["values"][-1] > 50:` (DXY). -/
def dxyAccept : Option TimeSeries → Bool
  | some a => !a.values.isEmpty && decide (50 < lastD a.values)
  | none => false

/-- `fetch_dxy()`: Polygon `I:DXY`, Yahoo `DX-Y.NYB`, then the UUP ETF proxy
scaled by 3.93 and marked `is_proxy`. -/
def fetch_dxy (k : Bool) (jPoly jYahoo jUUP : Option JVal) : Except PyErr (Option TimeSeries) :=
  match polygon_aggs k jPoly with
  | .error e => .error e
  | .ok agg =>
    if dxyAccept agg then .ok agg
    else
      match _yahoo_chart jYahoo with
      | .error e => .error e
      | .ok ydata =>
        if dxyAccept ydata then .ok ydata
        else
          match polygon_aggs k jUUP with
          | .error e => .error e
          | .ok (some a) =>
            if !a.values.isEmpty then
              .ok (some { a with
                values := a.values.map (fun v => pyRound (v * (393/100)) 2),
                is_proxy := true })
            else .ok none
          | .ok none => .ok none

/-- `if agg and agg["values"] and 0.5 < agg["values"][-1] < 15:` (10Y). -/
def tnxAccept : Option TimeSeries → Bool
  | some a => !a.values.isEmpty && decide (1/2 < lastD a.values) && decide (lastD a.values < 15)
  | none => false

/-- The unit fix-up on Yahoo `^TNX` (reported as yield × 10): divide by 10 —
but only when the last value exceeds 10. -/
def tnxAdjust (y : TimeSeries) : TimeSeries :=
  if 10 < lastD y.values then
    { y with values := y.values.map (fun v => pyRound (v / 10) 3) }
  else y

/-- `fetch_treasury_10y()`: Polygon `I:US10Y`, then Yahoo `^TNX` (with unit
fix-up), then a Polygon `TLT` fetch whose result is only logged, never
returned. -/
def fetch_treasury_10y (k : Bool) (jPoly jYahoo jTLT : Option JVal) :
    Except PyErr (Option TimeSeries) :=
  match polygon_aggs k jPoly with
  | .error e => .error e
  | .ok agg =>
    if tnxAccept agg then .ok agg
    else
      match _yahoo_chart jYahoo with
      | .error e => .error e
      | .ok ydata =>
        match ydata with
        | some y =>
          if !y.values.isEmpty then
            let y2 := tnxAdjust y
            if decide (1/2 < lastD y2.values) && decide (lastD y2.values < 15) then
              .ok (some y2)
            else
              -- fall through to the TLT fetch (result discarded)
              match polygon_aggs k jTLT with
              | .error e => .error e
              | .ok _ => .ok none
          else
            match polygon_aggs k jTLT with
            | .error e => .error e
            | .ok _ => .ok none
        | none =>
          match polygon_aggs k jTLT with
          | .error e => .error e
          | .ok _ => .ok none

/-- `if ydata and ydata["values"] and ydata["values"][-1] > 10:` (oil). -/
def oilAccept : Option TimeSeries → Bool
  | some a => !a.values.isEmpty && decide (10 < lastD a.values)
  | none => false

/-- `fetch_crude_oil()`: Yahoo `CL=F`, then the USO ETF proxy. -/
def fetch_crude_oil (k : Bool) (jYahoo jUSO : Option JVal) : Except PyErr (Option TimeSeries) :=
  match _yahoo_chart jYahoo with
  | .error e => .error e
  | .ok ydata =>
    if oilAccept ydata then .ok ydata
    else
      match polygon_aggs k jUSO with
      | .error e => .error e
      | .ok agg =>
        if oilAccept agg then
          match agg with
          | some a => .ok (some { a with is_proxy := true })
          | none => .ok none
        else .ok none

/-! ## Pulse scoring engine -/

/-- `max(0, min(100, x))`. -/
def clamp0100 (x : ℚ) : ℚ := max 0 (min 100 x)

/-- The `(name, score, weight)` triples collected for index `i` of the
scoring loop of `compute_pulse_score`. -/
def pulseSignals (spy_vals vix_vals volumes : List ℚ) (i : ℕ) : List (String × ℚ × ℚ) :=
  -- 1. Trend: price vs 20-day SMA (`if i >= 20:`)
  (if 20 ≤ i then
    let sma20 := ((spy_vals.drop (i - 20)).take 20).sum / 20
    let trend_pct := (spy_vals.getD i 0 - sma20) / sma20 * 100
    [("trend", clamp0100 (50 + trend_pct * 10), 1/4)]
   else []) ++
  -- 2. Momentum: 10-day rate of change (`if i >= 10:`)
  (if 10 ≤ i then
    let roc := (spy_vals.getD i 0 - spy_vals.getD (i - 10) 0) / spy_vals.getD (i - 10) 0 * 100
    [("momentum", clamp0100 (50 + roc * 8), 1/5)]
   else []) ++
  -- 3. Volatility level (always): `vix_vals[min(i, len(vix_vals)-1)]`
  (let vix := vix_vals.getD (min i (vix_vals.length - 1)) 0
   [("volatility", clamp0100 (100 - (vix - 12) * 4), 1/4)]) ++
  -- 4. VIX direction (`if i >= 5 and i < len(vix_vals):`)
  (if 5 ≤ i ∧ i < vix_vals.length then
    let vix := vix_vals.getD (min i (vix_vals.length - 1)) 0
    let vix_prev := vix_vals.getD (min (i - 5) (vix_vals.length - 1)) 0
    let vix_change := if vix_prev ≠ 0 then (vix - vix_prev) / vix_prev * 100 else 0
    [("vix_direction", clamp0100 (50 - vix_change * 5), 3/20)]
   else []) ++
  -- 5. Volume trend (`if i >= 20 and spy_data.get("volumes") and spy_data["volumes"]:`)
  (if 20 ≤ i ∧ ¬volumes.isEmpty then
    let recent_vols := (volumes.drop (i - 20)).take 20
    if ¬recent_vols.isEmpty ∧ ∀ v ∈ recent_vols, 0 < v then
      let vol_sma := recent_vols.sum / recent_vols.length
      let current_vol := if i < volumes.length then volumes.getD i 0 else vol_sma
      let volRatio := if 0 < vol_sma then current_vol / vol_sma else 1
      let price_dir : ℚ := if spy_vals.getD (i - 1) 0 ≤ spy_vals.getD i 0 then 1 else -1
      [("breadth", clamp0100 (50 + price_dir * (volRatio - 1) * 30), 3/20)]
    else []
   else [])

/-- One day's aggregate: weighted mean of the active signals, rounded to one
decimal; `50.0` if no signal is active. -/
def pulseScoreAt (spy_vals vix_vals volumes : List ℚ) (i : ℕ) : ℚ :=
  if !(pulseSignals spy_vals vix_vals volumes i).isEmpty then
    pyRound
      (((pulseSignals spy_vals vix_vals volumes i).map (fun s => s.2.1 * s.2.2)).sum /
        ((pulseSignals spy_vals vix_vals volumes i).map (fun s => s.2.2)).sum) 1
  else 50

/-- `compute_pulse_score(spy_data, vix_data)`, on the zero-denominator-free
path (no division the loop performs hits a zero denominator; this holds e.g.
whenever all benchmark values are positive).  `compute_pulse_scoreE` below
is the fallible embedding of the same loop, and
`compute_pulse_scoreE_eq_ok` proves the two agree on that path. -/
def compute_pulse_score (spy_data vix_data : Option TimeSeries) : Option (List ℚ) :=
  match spy_data, vix_data with
  | some spy, some vix =>
    let n := min spy.values.length vix.values.length
    if n < 20 then none
    else some ((List.range n).map (pulseScoreAt spy.values vix.values spy.volumes))
  | _, _ => none

/-- `pulseSignals` with Python's raising division: the trend signal divides
by the 20-day SMA and the momentum signal by the value 10 days back, both
unguarded in the source (`ZeroDivisionError` propagates out of
`compute_pulse_score`, which has no handler).  The remaining three signals
only divide behind explicit non-zero/positivity guards and cannot raise. -/
def pulseSignalsE (spy_vals vix_vals volumes : List ℚ) (i : ℕ) :
    Except PyErr (List (String × ℚ × ℚ)) :=
  match (if 20 ≤ i then
          match qdiv (spy_vals.getD i 0 - ((spy_vals.drop (i - 20)).take 20).sum / 20)
              (((spy_vals.drop (i - 20)).take 20).sum / 20) with
          | .error e => .error e
          | .ok t => .ok [("trend", clamp0100 (50 + t * 100 * 10), 1/4)]
         else .ok [] : Except PyErr (List (String × ℚ × ℚ))) with
  | .error e => .error e
  | .ok trendL =>
    match (if 10 ≤ i then
            match qdiv (spy_vals.getD i 0 - spy_vals.getD (i - 10) 0)
                (spy_vals.getD (i - 10) 0) with
            | .error e => .error e
            | .ok r => .ok [("momentum", clamp0100 (50 + r * 100 * 8), 1/5)]
           else .ok [] : Except PyErr (List (String × ℚ × ℚ))) with
    | .error e => .error e
    | .ok momL =>
      .ok (trendL ++ momL ++
        (let vix := vix_vals.getD (min i (vix_vals.length - 1)) 0
         [("volatility", clamp0100 (100 - (vix - 12) * 4), 1/4)]) ++
        (if 5 ≤ i ∧ i < vix_vals.length then
          let vix := vix_vals.getD (min i (vix_vals.length - 1)) 0
          let vix_prev := vix_vals.getD (min (i - 5) (vix_vals.length - 1)) 0
          let vix_change := if vix_prev ≠ 0 then (vix - vix_prev) / vix_prev * 100 else 0
          [("vix_direction", clamp0100 (50 - vix_change * 5), 3/20)]
         else []) ++
        (if 20 ≤ i ∧ ¬volumes.isEmpty then
          let recent_vols := (volumes.drop (i - 20)).take 20
          if ¬recent_vols.isEmpty ∧ ∀ v ∈ recent_vols, 0 < v then
            let vol_sma := recent_vols.sum / recent_vols.length
            let current_vol := if i < volumes.length then volumes.getD i 0 else vol_sma
            let volRatio := if 0 < vol_sma then current_vol / vol_sma else 1
            let price_dir : ℚ := if spy_vals.getD (i - 1) 0 ≤ spy_vals.getD i 0 then 1 else -1
            [("breadth", clamp0100 (50 + price_dir * (volRatio - 1) * 30), 3/20)]
          else []
         else []))

/-- `pulseScoreAt` with Python's raising division (the aggregate divides by
the weight total, which is positive whenever any signal is active). -/
def pulseScoreAtE (spy_vals vix_vals volumes : List ℚ) (i : ℕ) : Except PyErr ℚ :=
  match pulseSignalsE spy_vals vix_vals volumes i with
  | .error e => .error e
  | .ok signals =>
    if !signals.isEmpty then
      match qdiv ((signals.map (fun s => s.2.1 * s.2.2)).sum)
          ((signals.map (fun s => s.2.2)).sum) with
      | .error e => .error e
      | .ok x => .ok (pyRound x 1)
    else .ok 50

/-- `compute_pulse_score(spy_data, vix_data)` with Python's raising
division: the loop appends one score per index and the first
`ZeroDivisionError` aborts the whole call. -/
def compute_pulse_scoreE (spy_data vix_data : Option TimeSeries) :
    Except PyErr (Option (List ℚ)) :=
  match spy_data, vix_data with
  | some spy, some vix =>
    if min spy.values.length vix.values.length < 20 then .ok none
    else
      match mapME (pulseScoreAtE spy.values vix.values spy.volumes)
          (List.range (min spy.values.length vix.values.length)) with
      | .error e => .error e
      | .ok scores => .ok (some scores)
  | _, _ => .ok none

/-! ## Prediction generator -/

inductive Direction where
  | BULLISH : Direction
  | BEARISH : Direction
  | NEUTRAL : Direction
deriving DecidableEq

structure Prediction where
  name : String
  direction : Direction
  confidence : ℤ
  horizon : String
  rationale : String
deriving DecidableEq

/-- The `if vals[-1] > sma20 > sma50 / elif vals[-1] < sma20 < sma50 / else`
ladder of the "Trend Regime" card.  (The Python assigns direction and
confidence together in each branch; they are split into two functions over
the same ladder here.) -/
def trendDirection (vals : List ℚ) : Direction :=
  if (takeLast 20 vals).sum / 20 < lastD vals ∧
      (takeLast 50 vals).sum / 50 < (takeLast 20 vals).sum / 20 then .BULLISH
  else if lastD vals < (takeLast 20 vals).sum / 20 ∧
      (takeLast 20 vals).sum / 20 < (takeLast 50 vals).sum / 50 then .BEARISH
  else .NEUTRAL

def trendConfidence (vals : List ℚ) : ℤ :=
  if (takeLast 20 vals).sum / 20 < lastD vals ∧
      (takeLast 50 vals).sum / 50 < (takeLast 20 vals).sum / 20 then
    min 85 (60 + pyInt ((lastD vals / ((takeLast 20 vals).sum / 20) - 1) * 500))
  else if lastD vals < (takeLast 20 vals).sum / 20 ∧
      (takeLast 20 vals).sum / 20 < (takeLast 50 vals).sum / 50 then
    min 85 (60 + pyInt ((1 - lastD vals / ((takeLast 20 vals).sum / 20)) * 500))
  else 45

/-- `trendConfidence` with Python's raising division: both non-neutral
branches compute `vals[-1] / sma20` unguarded, so a zero 20-day SMA raises
`ZeroDivisionError` out of `compute_predictions` (no handler).
`trendConfidence` above is the zero-SMA-free path of the same ladder. -/
def trendConfidenceE (vals : List ℚ) : Except PyErr ℤ :=
  if (takeLast 20 vals).sum / 20 < lastD vals ∧
      (takeLast 50 vals).sum / 50 < (takeLast 20 vals).sum / 20 then
    match qdiv (lastD vals) ((takeLast 20 vals).sum / 20) with
    | .error e => .error e
    | .ok r => .ok (min 85 (60 + pyInt ((r - 1) * 500)))
  else if lastD vals < (takeLast 20 vals).sum / 20 ∧
      (takeLast 20 vals).sum / 20 < (takeLast 50 vals).sum / 50 then
    match qdiv (lastD vals) ((takeLast 20 vals).sum / 20) with
    | .error e => .error e
    | .ok r => .ok (min 85 (60 + pyInt ((1 - r) * 500)))
  else .ok 45

/-- The "Trend Regime" card (`if spy_data and len(spy_data["values"]) >= 50:`). -/
def trendPrediction (vals : List ℚ) : Prediction :=
  { name := "Trend Regime", direction := trendDirection vals,
    confidence := trendConfidence vals,
    horizon := "1-2 weeks",
    rationale := "SPY vs 20/50 SMA alignment. Price: $" ++ formatFixed (lastD vals) 2 ++
      ", SMA20: $" ++ formatFixed ((takeLast 20 vals).sum / 20) 2 ++
      ", SMA50: $" ++ formatFixed ((takeLast 50 vals).sum / 50) 2 }

/-- The "Volatility Regime" card (`if vix_data and len(vix_data["values"]) >= 20:`). -/
def volPrediction (vix_vals : List ℚ) : Prediction :=
  let vix_now := lastD vix_vals
  let vix_sma := (takeLast 20 vix_vals).sum / 20
  let (dir, note) : Direction × String :=
    if vix_now < 15 then
      (.BULLISH, "Low vol regime — complacency can persist but watch for spikes")
    else if 25 < vix_now then
      (.BEARISH, "Elevated fear — potential capitulation or more downside")
    else (.NEUTRAL, "Normal volatility range")
  { name := "Volatility Regime", direction := dir,
    confidence := min 80 (50 + pyInt (|vix_now - vix_sma| * 3)),
    horizon := "1 week",
    rationale := "VIX: " ++ formatFixed vix_now 1 ++ " vs 20-day avg: " ++
      formatFixed vix_sma 1 ++ ". " ++ note }

/-- The "Pulse Momentum" card (`if pulse_scores and len(pulse_scores) >= 5:`). -/
def pulsePrediction (pulse_scores : List ℚ) : Prediction :=
  let recent := takeLast 5 pulse_scores
  let avg := recent.sum / recent.length
  let trendDelta := lastD recent - recent.headD 0
  let (dir, note) : Direction × String :=
    if 65 < avg ∧ 0 < trendDelta then
      (.BULLISH, "Momentum accelerating into greed zone")
    else if avg < 35 ∧ trendDelta < 0 then
      (.BEARISH, "Momentum deteriorating into fear zone")
    else if 60 < avg then
      (.BULLISH, "Positive pulse but watch for exhaustion")
    else if avg < 40 then
      (.BEARISH, "Negative pulse — look for reversal signals")
    else (.NEUTRAL, "Mixed signals — chop zone")
  { name := "Pulse Momentum", direction := dir,
    confidence := min 75 (40 + pyInt (|avg - 50| * (4/5))),
    horizon := "3-5 days",
    rationale := "5-day avg pulse: " ++ formatFixed avg 1 ++ ", trend: " ++
      (if 0 < trendDelta then "+" else "") ++ formatFixed trendDelta 1 ++ ". " ++ note }

/-- `compute_predictions(spy_data, vix_data, pulse_scores)`. -/
def compute_predictions (spy_data vix_data : Option TimeSeries)
    (pulse_scores : Option (List ℚ)) : List Prediction :=
  (match spy_data with
   | some spy => if 50 ≤ spy.values.length then [trendPrediction spy.values] else []
   | none => []) ++
  (match vix_data with
   | some vix => if 20 ≤ vix.values.length then [volPrediction vix.values] else []
   | none => []) ++
  (match pulse_scores with
   | some ps => if 5 ≤ ps.length then [pulsePrediction ps] else []
   | none => [])

/-! ## Main pipeline -/

/-- Environment configuration read at module load. -/
structure Config where
  polygonKey : Bool
  finnhubKey : Bool

/-- One fixed set of upstream transport responses: each field is what
`fetch_json` delivers for the corresponding request (`none` = failure after
retries).  `quoteResp` serves the per-symbol Finnhub quote requests. -/
structure Upstream where
  spyPoly : Option JVal
  spyYahoo : Option JVal
  vixPoly : Option JVal
  vixYahoo : Option JVal
  dxyPoly : Option JVal
  dxyYahoo : Option JVal
  dxyUUP : Option JVal
  tnxPoly : Option JVal
  tnxYahoo : Option JVal
  tnxTLT : Option JVal
  btcPoly : Option JVal
  btcYahoo : Option JVal
  oilYahoo : Option JVal
  oilUSO : Option JVal
  quoteResp : String → Option JVal

def WATCHLIST : List String := ["TSLA", "PLTR", "AMZN", "HOOD", "SOFI", "RIVN", "NIO"]

def SECTORS : List (String × String) :=
  [("XLK", "Technology"), ("XLF", "Financials"), ("XLE", "Energy"),
   ("XLV", "Healthcare"), ("XLI", "Industrials"), ("XLY", "Cons. Disc."),
   ("XLP", "Cons. Staples"), ("XLU", "Utilities"), ("XLRE", "Real Estate"),
   ("XLC", "Comms"), ("XLB", "Materials")]

/-- The `metrics` dict of `main()` minus its `last_updated` stamp: one
optional entry per indicator, `none` meaning the key is absent. -/
structure MetricsCore where
  SPY : Option (List ℚ)
  VIX : Option (List ℚ)
  DXY : Option (List ℚ)
  TNX : Option (List ℚ)
  BTC : Option (List ℚ)
  CL : Option (List ℚ)
deriving DecidableEq

/-- `values[-30:]`. -/
def last30 (xs : List ℚ) : List ℚ := xs.drop (xs.length - 30)

/-- `if agg and agg["values"]: metrics[KEY] = {"values": agg["values"][-30:]}`
(the SPY/BTC shape, no final range check). -/
def plainEntry (x : Option TimeSeries) : Option (List ℚ) :=
  match x with
  | some a => if !a.values.isEmpty then some (last30 a.values) else none
  | none => none

/-- The VIX/DXY/TNX/CL shape: same, plus `if lo < latest < hi:` — out of
range means the key is not inserted at all. -/
def gatedEntry (lo hi : ℚ) (x : Option TimeSeries) : Option (List ℚ) :=
  match x with
  | some a =>
    if !a.values.isEmpty then
      if lo < lastD a.values ∧ lastD a.values < hi then some (last30 a.values) else none
    else none
  | none => none

/-- The metrics-building section of `main()` (the final range checks). -/
def buildMetricsCore (spy vix dxy tnx btc oil : Option TimeSeries) : MetricsCore where
  SPY := plainEntry spy
  VIX := gatedEntry 5 100 vix
  DXY := gatedEntry 80 130 dxy
  TNX := gatedEntry (1/2) 15 tnx
  BTC := plainEntry btc
  CL := gatedEntry 20 200 oil

/-- One entry of `sectors.json`'s `sectors` mapping (insertion order kept). -/
structure SectorEntry where
  name : String
  symbol : String
  price : JVal
  change_pct : JVal

def buildSectorsAux (k : Bool) (resp : String → Option JVal) :
    List (String × String) → List SectorEntry → Except PyErr (List SectorEntry)
  | [], acc => .ok acc
  | (sym, nm) :: rest, acc =>
    match finnhub_quote k (resp sym) with
    | .error e => .error e
    | .ok none => buildSectorsAux k resp rest acc
    | .ok (some q) => buildSectorsAux k resp rest (acc ++ [⟨nm, sym, q.price, q.change_pct⟩])

/-- One entry of `watchlist.json`'s `stocks` array. -/
structure Stock where
  ticker : String
  price : JVal
  change_pct : JVal
  volume : JVal
  signal : Direction
  notes : String

/-- The signal ladder of the watchlist loop:
`if q["change_pct"] and q["change_pct"] > 1.5: ... elif ... < -1.5: ...`.
(The `elif` re-tests the truthiness already established; collapsed here.) -/
def stockSignal (dp : JVal) : Except PyErr Direction :=
  if pyTruthy dp then
    match pyGT dp (3/2) with
    | .error e => .error e
    | .ok true => .ok .BULLISH
    | .ok false =>
      match pyLT dp (-(3/2)) with
      | .error e => .error e
      | .ok true => .ok .BEARISH
      | .ok false => .ok .NEUTRAL
  else .ok .NEUTRAL

def buildStocksAux (k : Bool) (resp : String → Option JVal) :
    List String → List Stock → Except PyErr (List Stock)
  | [], acc => .ok acc
  | sym :: rest, acc =>
    match finnhub_quote k (resp sym) with
    | .error e => .error e
    | .ok none => buildStocksAux k resp rest acc
    | .ok (some q) =>
      match stockSignal q.change_pct with
      | .error e => .error e
      | .ok sig =>
        buildStocksAux k resp rest (acc ++ [⟨sym, q.price, q.change_pct, .null, sig, ""⟩])

/-- The watchlist loop of `main()`. -/
def buildStocks (k : Bool) (resp : String → Option JVal) : Except PyErr (List Stock) :=
  buildStocksAux k resp WATCHLIST []

/-- `volatility.json` content: the VIX history and its 20-day SMA series,
both present exactly when the VIX series resolved non-empty. -/
def volSmaSeries (a : TimeSeries) : List String × List ℚ :=
  ((List.range' 19 (a.values.length - 19)).map (fun i => a.dates.getD i ""),
   (List.range' 19 (a.values.length - 19)).map (fun i =>
     pyRound (((a.values.drop (i - 19)).take 20).sum / 20) 2))

def buildVolCore (vix : Option TimeSeries) :
    Option ((List String × List ℚ) × (List String × List ℚ)) :=
  match vix with
  | some a =>
    if !a.values.isEmpty then some ((a.dates, a.values), volSmaSeries a) else none
  | none => none

/-- `pulse.json` content: the benchmark dates are trimmed by
`offset = len(dates) - len(scores)`. -/
def buildPulseCore (spy : Option TimeSeries) (ps : Option (List ℚ)) :
    List String × List ℚ :=
  match ps, spy with
  | some scores, some a =>
    if !scores.isEmpty then (a.dates.drop (a.dates.length - scores.length), scores)
    else ([], [])
  | _, _ => ([], [])

/-- The macro-context notes of `main()` except the final "Last run" stamp
(that one reads the clock and is appended at assembly). -/
def contextNotesCore (spy_agg vix_agg tnx_agg dxy_agg oil_agg : Option TimeSeries) :
    List String :=
  (match vix_agg with
   | some a =>
     if !a.values.isEmpty then
       let v := lastD a.values
       if 25 < v then
         ["⚠️ VIX elevated at " ++ formatFixed v 1 ++ " — market pricing in uncertainty"]
       else if v < 14 then
         ["😴 VIX at " ++ formatFixed v 1 ++ " — extreme complacency, potential for vol expansion"]
       else ["VIX at " ++ formatFixed v 1 ++ " — normal range"]
     else ["⚠️ VIX data unavailable — check data sources"]
   | none => ["⚠️ VIX data unavailable — check data sources"]) ++
  (match spy_agg with
   | some a =>
     if 50 ≤ a.values.length then
       let sma50 := (takeLast 50 a.values).sum / 50
       if sma50 < lastD a.values then
         ["S&P 500 trading above 50-day MA ($" ++ formatFixed sma50 0 ++ ") — bullish structure intact"]
       else
         ["S&P 500 below 50-day MA ($" ++ formatFixed sma50 0 ++ ") — cautious positioning warranted"]
     else []
   | none => []) ++
  (match tnx_agg with
   | some a =>
     if !a.values.isEmpty then ["10Y Treasury Yield: " ++ formatFixed (lastD a.values) 2 ++ "%"]
     else []
   | none => []) ++
  (match dxy_agg with
   | some a =>
     if !a.values.isEmpty then ["US Dollar Index (DXY): " ++ formatFixed (lastD a.values) 2]
     else []
   | none => []) ++
  (match oil_agg with
   | some a =>
     if !a.values.isEmpty then ["WTI Crude Oil: $" ++ formatFixed (lastD a.values) 2]
     else []
   | none => []) ++
  ["Pipeline v2 — data sources: Polygon.io, Yahoo Finance, Finnhub"]

/-- SPY and BTC have an inline `if not agg:` Yahoo fallback in `main()`. -/
def fetchWithYahooFallback (k : Bool) (jPoly jYahoo : Option JVal) :
    Except PyErr (Option TimeSeries) :=
  match polygon_aggs k jPoly with
  | .error e => .error e
  | .ok (some a) => .ok (some a)
  | .ok none => _yahoo_chart jYahoo

/-- All clock-independent content the run produces. -/
structure PipelineCore where
  metrics : MetricsCore
  sectors : List SectorEntry
  stocks : List Stock
  volData : Option ((List String × List ℚ) × (List String × List ℚ))
  pulse : List String × List ℚ
  preds : List Prediction
  notes : List String

/-- `main()` up to (but not including) stamping `last_updated` / the
"Last run" note; an uncaught adapter exception aborts the whole run. -/
def mainCore (cfg : Config) (u : Upstream) : Except PyErr PipelineCore :=
  match fetchWithYahooFallback cfg.polygonKey u.spyPoly u.spyYahoo with
  | .error e => .error e
  | .ok spy_agg =>
  match fetch_vix cfg.polygonKey u.vixPoly u.vixYahoo with
  | .error e => .error e
  | .ok vix_agg =>
  match fetch_dxy cfg.polygonKey u.dxyPoly u.dxyYahoo u.dxyUUP with
  | .error e => .error e
  | .ok dxy_agg =>
  match fetch_treasury_10y cfg.polygonKey u.tnxPoly u.tnxYahoo u.tnxTLT with
  | .error e => .error e
  | .ok tnx_agg =>
  match fetchWithYahooFallback cfg.polygonKey u.btcPoly u.btcYahoo with
  | .error e => .error e
  | .ok btc_agg =>
  match fetch_crude_oil cfg.polygonKey u.oilYahoo u.oilUSO with
  | .error e => .error e
  | .ok oil_agg =>
  match buildSectorsAux cfg.finnhubKey u.quoteResp SECTORS [] with
  | .error e => .error e
  | .ok sectors =>
  match buildStocks cfg.finnhubKey u.quoteResp with
  | .error e => .error e
  | .ok stocks =>
    let pulse_scores := compute_pulse_score spy_agg vix_agg
    .ok { metrics := buildMetricsCore spy_agg vix_agg dxy_agg tnx_agg btc_agg oil_agg,
          sectors := sectors,
          stocks := stocks,
          volData := buildVolCore vix_agg,
          pulse := buildPulseCore spy_agg pulse_scores,
          preds := compute_predictions spy_agg vix_agg pulse_scores,
          notes := contextNotesCore spy_agg vix_agg tnx_agg dxy_agg oil_agg }

/-- The two clock reads of `main()`: `datetime.now().isoformat()` (stamped
into every file as `last_updated`) and the `strftime('%Y-%m-%d %I:%M %p')`
rendering used in the final macro note. -/
structure Clock where
  iso : String
  pretty : String

structure MetricsOut where
  last_updated : String
  SPY : Option (List ℚ)
  VIX : Option (List ℚ)
  DXY : Option (List ℚ)
  TNX : Option (List ℚ)
  BTC : Option (List ℚ)
  CL : Option (List ℚ)

structure SectorsOut where
  last_updated : String
  sectors : List SectorEntry

structure WatchOut where
  last_updated : String
  stocks : List Stock

structure VolOut where
  last_updated : String
  volData : Option ((List String × List ℚ) × (List String × List ℚ))

structure PulseOut where
  last_updated : String
  dates : List String
  scores : List ℚ

structure PredOut where
  last_updated : String
  predictions : List Prediction

/-- `macro.json`. -/
structure NotesOut where
  last_updated : String
  notes : List String

/-- The seven files a run writes (as values; `json.dump(..., indent=2)`
serialises a given value to identical bytes on every run). -/
structure Outputs where
  metricsOut : MetricsOut
  sectorsOut : SectorsOut
  watchlistOut : WatchOut
  volatilityOut : VolOut
  pulseOut : PulseOut
  predictionsOut : PredOut
  contextOut : NotesOut

def assembleOutputs (clk : Clock) (c : PipelineCore) : Outputs where
  metricsOut := ⟨clk.iso, c.metrics.SPY, c.metrics.VIX, c.metrics.DXY,
    c.metrics.TNX, c.metrics.BTC, c.metrics.CL⟩
  sectorsOut := ⟨clk.iso, c.sectors⟩
  watchlistOut := ⟨clk.iso, c.stocks⟩
  volatilityOut := ⟨clk.iso, c.volData⟩
  pulseOut := ⟨clk.iso, c.pulse.1, c.pulse.2⟩
  predictionsOut := ⟨clk.iso, c.preds⟩
  contextOut := ⟨clk.iso, c.notes ++ ["Last run: " ++ clk.pretty ++ " ET"]⟩

/-- One full pipeline run. -/
def main_run (cfg : Config) (u : Upstream) (clk : Clock) : Except PyErr Outputs :=
  match mainCore cfg u with
  | .error e => .error e
  | .ok c => .ok (assembleOutputs clk c)

/-- Everything in the outputs other than the `last_updated` stamps and the
final "Last run" macro note. -/
def stripClock (o : Outputs) :=
  (o.metricsOut.SPY, o.metricsOut.VIX, o.metricsOut.DXY, o.metricsOut.TNX,
   o.metricsOut.BTC, o.metricsOut.CL, o.sectorsOut.sectors, o.watchlistOut.stocks,
   o.volatilityOut.volData, o.pulseOut.dates, o.pulseOut.scores,
   o.predictionsOut.predictions, o.contextOut.notes.dropLast)

/-! ## General helper lemmas -/

instance instDecEqExcept {ε : Type u} {α : Type v} [DecidableEq ε] [DecidableEq α] :
    DecidableEq (Except ε α) := fun a b =>
  match a, b with
  | .error x, .error y =>
    if h : x = y then isTrue (congrArg Except.error h)
    else isFalse (fun hc => h (by injection hc))
  | .error _, .ok _ => isFalse (fun hc => Except.noConfusion hc)
  | .ok _, .error _ => isFalse (fun hc => Except.noConfusion hc)
  | .ok x, .ok y =>
    if h : x = y then isTrue (congrArg Except.ok h)
    else isFalse (fun hc => h (by injection hc))

theorem den_one_of_intCast {q : ℚ} (z : ℤ) (h : q = (z : ℚ)) : q.den = 1 := by
  rw [h]
  exact Rat.den_intCast z

theorem getD_replicate (c d : ℚ) : ∀ (n i : ℕ), i < n → (List.replicate n c).getD i d = c := by
  intro n
  induction n with
  | zero => intro i h; omega
  | succ m ih =>
    intro i h
    cases i with
    | zero => rfl
    | succ j => exact ih j (by omega)

theorem map_congr_mem {α β : Type _} (l : List α) (f g : α → β)
    (h : ∀ x ∈ l, f x = g x) : l.map f = l.map g := by
  induction l with
  | nil => rfl
  | cons a t ih =>
    simp only [List.map_cons]
    rw [h a (List.mem_cons_self a t), ih (fun x hx => h x (List.mem_cons_of_mem a hx))]

/-! ## Bounds of the pulse score (claim C2) -/

theorem clamp0100_nonneg (x : ℚ) : 0 ≤ clamp0100 x := le_max_left 0 _

theorem clamp0100_le_100 (x : ℚ) : clamp0100 x ≤ 100 :=
  max_le (by norm_num) (min_le_left _ _)

theorem pulseSignals_score_mem (sv vv vols : List ℚ) (i : ℕ) :
    ∀ p ∈ pulseSignals sv vv vols i, (0 ≤ p.2.1 ∧ p.2.1 ≤ 100) ∧ 0 < p.2.2 := by
  intro p hp
  unfold pulseSignals at hp
  simp only [List.mem_append] at hp
  have hbase : ∀ (s : String) (x w : ℚ), p = (s, clamp0100 x, w) → 0 < w →
      (0 ≤ p.2.1 ∧ p.2.1 ≤ 100) ∧ 0 < p.2.2 := by
    rintro s x w rfl hw
    exact ⟨⟨clamp0100_nonneg _, clamp0100_le_100 _⟩, hw⟩
  rcases hp with ((((h | h) | h) | h) | h)
  · split at h
    · simp only [List.mem_singleton] at h
      exact hbase _ _ _ h (by norm_num)
    · simp at h
  · split at h
    · simp only [List.mem_singleton] at h
      exact hbase _ _ _ h (by norm_num)
    · simp at h
  · simp only [List.mem_singleton] at h
    exact hbase _ _ _ h (by norm_num)
  · split at h
    · simp only [List.mem_singleton] at h
      exact hbase _ _ _ h (by norm_num)
    · simp at h
  · split at h
    · split at h
      · simp only [List.mem_singleton] at h
        exact hbase _ _ _ h (by norm_num)
      · simp at h
    · simp at h

theorem weighted_sum_le (l : List (String × ℚ × ℚ))
    (h : ∀ p ∈ l, (0 ≤ p.2.1 ∧ p.2.1 ≤ 100) ∧ 0 < p.2.2) :
    0 ≤ (l.map (fun s => s.2.1 * s.2.2)).sum ∧
    (l.map (fun s => s.2.1 * s.2.2)).sum ≤ 100 * (l.map (fun s => s.2.2)).sum := by
  induction l with
  | nil => simp
  | cons a t ih =>
    have ha := h a (List.mem_cons_self a t)
    have ht := ih (fun p hp => h p (List.mem_cons_of_mem a hp))
    simp only [List.map_cons, List.sum_cons]
    constructor
    · have h1 : 0 ≤ a.2.1 * a.2.2 := mul_nonneg ha.1.1 (le_of_lt ha.2)
      linarith [ht.1]
    · have h1 : a.2.1 * a.2.2 ≤ 100 * a.2.2 :=
        mul_le_mul_of_nonneg_right ha.1.2 (le_of_lt ha.2)
      have h2 := ht.2
      linarith

theorem weight_sum_pos (l : List (String × ℚ × ℚ)) (hne : ¬l.isEmpty)
    (h : ∀ p ∈ l, 0 < p.2.2) : 0 < (l.map (fun s => s.2.2)).sum := by
  apply List.sum_pos
  · intro x hx
    obtain ⟨p, hp, rfl⟩ := List.mem_map.mp hx
    exact h p hp
  · simp only [ne_eq, List.map_eq_nil_iff]
    intro hl
    rw [hl] at hne
    simp at hne

theorem pulseScoreAt_bounds (sv vv vols : List ℚ) (i : ℕ) :
    0 ≤ pulseScoreAt sv vv vols i ∧ pulseScoreAt sv vv vols i ≤ 100 ∧
    (pulseScoreAt sv vv vols i * 10).den = 1 := by
  unfold pulseScoreAt
  split
  · rename_i hne
    have hmem := pulseSignals_score_mem sv vv vols i
    have hW : 0 < ((pulseSignals sv vv vols i).map (fun s => s.2.2)).sum := by
      apply weight_sum_pos _ (by simpa using hne)
      exact fun p hp => (hmem p hp).2
    have hS := weighted_sum_le _ hmem
    refine ⟨?_, ?_, pyRound_den_one _⟩
    · exact pyRound_nonneg 1 (div_nonneg hS.1 (le_of_lt hW))
    · apply pyRound_le_of_le 1 (den_one_of_intCast 1000 (by norm_num))
      rw [div_le_iff₀ hW]
      linarith [hS.2]
  · exact ⟨by norm_num, by norm_num, den_one_of_intCast 500 (by norm_num)⟩

/-! ### The fallible engine versus the total one

`compute_pulse_scoreE` is the embedding of the scoring loop with Python's
raising division; `compute_pulse_score` is its zero-denominator-free path.
When every benchmark value is positive, no denominator the loop divides by
can vanish and the two agree (`compute_pulse_scoreE_eq_ok`). -/

theorem mapME_ok {α β : Type _} (f : α → Except PyErr β) (g : α → β) (l : List α)
    (h : ∀ a ∈ l, f a = .ok (g a)) : mapME f l = .ok (l.map g) := by
  induction l with
  | nil => rfl
  | cons a t ih =>
    simp only [mapME, h a (List.mem_cons_self a t),
      ih (fun x hx => h x (List.mem_cons_of_mem a hx)), List.map_cons]

theorem mapME_append_error {α β : Type _} (f : α → Except PyErr β) (e : PyErr)
    (l1 : List α) (a : α) (l2 : List α)
    (hok : ∀ x ∈ l1, ∃ b, f x = .ok b) (ha : f a = .error e) :
    mapME f (l1 ++ a :: l2) = .error e := by
  induction l1 with
  | nil => simp only [List.nil_append, mapME, ha]
  | cons x t ih =>
    obtain ⟨b, hb⟩ := hok x (List.mem_cons_self x t)
    have ih2 := ih (fun y hy => hok y (List.mem_cons_of_mem x hy))
    simp only [List.cons_append, mapME, hb, List.append_eq, ih2]

theorem pulseSignalsE_eq_ok (sv vv vols : List ℚ) (i : ℕ)
    (h20 : 20 ≤ i → ((sv.drop (i - 20)).take 20).sum / 20 ≠ 0)
    (h10 : 10 ≤ i → sv.getD (i - 10) 0 ≠ 0) :
    pulseSignalsE sv vv vols i = .ok (pulseSignals sv vv vols i) := by
  unfold pulseSignalsE pulseSignals
  by_cases hc20 : 20 ≤ i
  · have hc10 : 10 ≤ i := by omega
    have hq1 : qdiv (sv.getD i 0 - ((sv.drop (i - 20)).take 20).sum / 20)
        (((sv.drop (i - 20)).take 20).sum / 20) =
        .ok ((sv.getD i 0 - ((sv.drop (i - 20)).take 20).sum / 20) /
          (((sv.drop (i - 20)).take 20).sum / 20)) := by
      unfold qdiv
      rw [if_neg (h20 hc20)]
    have hq2 : qdiv (sv.getD i 0 - sv.getD (i - 10) 0) (sv.getD (i - 10) 0) =
        .ok ((sv.getD i 0 - sv.getD (i - 10) 0) / sv.getD (i - 10) 0) := by
      unfold qdiv
      rw [if_neg (h10 hc10)]
    simp only [hc20, hc10, if_true, hq1, hq2]
  · by_cases hc10 : 10 ≤ i
    · have hq2 : qdiv (sv.getD i 0 - sv.getD (i - 10) 0) (sv.getD (i - 10) 0) =
          .ok ((sv.getD i 0 - sv.getD (i - 10) 0) / sv.getD (i - 10) 0) := by
        unfold qdiv
        rw [if_neg (h10 hc10)]
      simp only [hc20, hc10, if_true, if_false, hq2]
    · simp only [hc20, hc10, if_false]

theorem pulseScoreAtE_eq_ok (sv vv vols : List ℚ) (i : ℕ)
    (h20 : 20 ≤ i → ((sv.drop (i - 20)).take 20).sum / 20 ≠ 0)
    (h10 : 10 ≤ i → sv.getD (i - 10) 0 ≠ 0) :
    pulseScoreAtE sv vv vols i = .ok (pulseScoreAt sv vv vols i) := by
  unfold pulseScoreAtE pulseScoreAt
  rw [pulseSignalsE_eq_ok sv vv vols i h20 h10]
  by_cases hne : (pulseSignals sv vv vols i).isEmpty = true
  · simp [hne]
  · have hW : 0 < ((pulseSignals sv vv vols i).map (fun s => s.2.2)).sum :=
      weight_sum_pos _ hne (fun p hp => (pulseSignals_score_mem sv vv vols i p hp).2)
    have hq : qdiv ((pulseSignals sv vv vols i).map (fun s => s.2.1 * s.2.2)).sum
        ((pulseSignals sv vv vols i).map (fun s => s.2.2)).sum =
        .ok (((pulseSignals sv vv vols i).map (fun s => s.2.1 * s.2.2)).sum /
          ((pulseSignals sv vv vols i).map (fun s => s.2.2)).sum) := by
      unfold qdiv
      rw [if_neg (ne_of_gt hW)]
    simp [hne, hq]

theorem getD_pos_of_forall (l : List ℚ) (hpos : ∀ x ∈ l, 0 < x) (j : ℕ)
    (hj : j < l.length) : 0 < l.getD j 0 := by
  rw [List.getD_eq_getElem?_getD, List.getElem?_eq_getElem hj, Option.getD_some]
  exact hpos _ (List.getElem_mem hj)

theorem slice_sum_pos (l : List ℚ) (hpos : ∀ x ∈ l, 0 < x) (k m : ℕ) (hm : 0 < m)
    (hlen : k + m ≤ l.length) : 0 < ((l.drop k).take m).sum := by
  apply List.sum_pos
  · intro x hx
    exact hpos x (List.mem_of_mem_drop (List.mem_of_mem_take hx))
  · have hL : ((l.drop k).take m).length = m := by
      rw [List.length_take, List.length_drop]
      omega
    intro hc
    rw [hc] at hL
    simp at hL
    omega

theorem compute_pulse_score_some (s v : TimeSeries)
    (h : 20 ≤ min s.values.length v.values.length) :
    compute_pulse_score (some s) (some v) =
      some ((List.range (min s.values.length v.values.length)).map
        (pulseScoreAt s.values v.values s.volumes)) := by
  simp only [compute_pulse_score]
  rw [if_neg (Nat.not_lt.mpr h)]

/-- With every benchmark value positive, no division of the scoring loop
hits a zero denominator: the fallible engine returns the total one's
result. -/
theorem compute_pulse_scoreE_eq_ok (s v : TimeSeries)
    (hpos : ∀ x ∈ s.values, 0 < x) :
    compute_pulse_scoreE (some s) (some v) =
      .ok (compute_pulse_score (some s) (some v)) := by
  by_cases hn : min s.values.length v.values.length < 20
  · simp only [compute_pulse_scoreE, compute_pulse_score, if_pos hn]
  · have hpt : ∀ i ∈ List.range (min s.values.length v.values.length),
        pulseScoreAtE s.values v.values s.volumes i =
          .ok (pulseScoreAt s.values v.values s.volumes i) := by
      intro i hi
      have hilen : i < s.values.length := by
        have := List.mem_range.mp hi
        omega
      apply pulseScoreAtE_eq_ok
      · intro h20i
        have hsum : 0 < ((s.values.drop (i - 20)).take 20).sum :=
          slice_sum_pos s.values hpos (i - 20) 20 (by norm_num) (by omega)
        exact ne_of_gt (div_pos hsum (by norm_num))
      · intro h10i
        exact ne_of_gt (getD_pos_of_forall s.values hpos (i - 10) (by omega))
    simp only [compute_pulse_scoreE, compute_pulse_score, if_neg hn]
    rw [mapME_ok _ _ _ hpt]

/-- C2 (counterexample).  A 20-point all-zero benchmark against a pinned
volatility index reaches the momentum signal's division by
`spy_vals[i-10] = 0` at `i = 10`: the engine raises `ZeroDivisionError`
instead of returning a score list, although both series are present and
n = 20 ≥ 20. -/
theorem pulse_zero_division_crash :
    compute_pulse_scoreE
        (some ⟨List.replicate 20 "d", List.replicate 20 (0 : ℚ), [], false⟩)
        (some ⟨List.replicate 20 "d", List.replicate 20 (12 : ℚ), [], false⟩) =
      .error .zeroDivisionError ∧
    20 ≤ min (List.replicate 20 (0 : ℚ)).length (List.replicate 20 (12 : ℚ)).length := by
  refine ⟨?_, by simp⟩
  have hok : ∀ j ∈ List.range 10, ∃ b,
      pulseScoreAtE (List.replicate 20 (0 : ℚ)) (List.replicate 20 (12 : ℚ)) [] j =
        .ok b := by
    intro j hj
    have hj10 : j < 10 := List.mem_range.mp hj
    exact ⟨_, pulseScoreAtE_eq_ok _ _ _ j
      (fun hc => absurd hc (by omega)) (fun hc => absurd hc (by omega))⟩
  have hg : (List.replicate 20 (0 : ℚ)).getD (10 - 10) 0 = 0 :=
    getD_replicate 0 0 20 (10 - 10) (by omega)
  have hsig : pulseSignalsE (List.replicate 20 (0 : ℚ)) (List.replicate 20 (12 : ℚ)) [] 10 =
      .error .zeroDivisionError := by
    unfold pulseSignalsE
    rw [if_neg (by omega : ¬(20 : ℕ) ≤ 10), if_pos (by omega : (10 : ℕ) ≤ 10), hg]
    norm_num [qdiv]
  have hsc : pulseScoreAtE (List.replicate 20 (0 : ℚ)) (List.replicate 20 (12 : ℚ)) [] 10 =
      .error .zeroDivisionError := by
    unfold pulseScoreAtE
    rw [hsig]
  have hrange : List.range 20 =
      List.range 10 ++ 10 :: List.map (fun j => 11 + j) (List.range 9) := by decide
  have hmap : mapME (pulseScoreAtE (List.replicate 20 (0 : ℚ))
      (List.replicate 20 (12 : ℚ)) []) (List.range 20) = .error .zeroDivisionError := by
    rw [hrange]
    exact mapME_append_error _ _ _ _ _ hok hsc
  simp only [compute_pulse_scoreE, List.length_replicate, min_self]
  rw [if_neg (by omega), hmap]

/-- C2 (amended).  `compute_pulse_score` returns `None` exactly when a
series is missing or fewer than 20 points overlap; on overlapping inputs
whose benchmark values are all positive (so that neither the 20-day SMA nor
the value 10 days back can be zero) it returns one score per scored index,
each in `[0, 100]` and a multiple of `0.1`; with a zero denominator it
instead raises `ZeroDivisionError`. -/
theorem compute_pulse_score_contract :
    (∀ vd, compute_pulse_scoreE none vd = .ok none) ∧
    (∀ sd, compute_pulse_scoreE sd none = .ok none) ∧
    (∀ s v, min s.values.length v.values.length < 20 →
      compute_pulse_scoreE (some s) (some v) = .ok none) ∧
    (∀ s v, 20 ≤ min s.values.length v.values.length →
      (∀ x ∈ s.values, 0 < x) →
      ∃ scores, compute_pulse_scoreE (some s) (some v) = .ok (some scores) ∧
        compute_pulse_score (some s) (some v) = some scores ∧
        scores.length = min s.values.length v.values.length ∧
        ∀ x ∈ scores, 0 ≤ x ∧ x ≤ 100 ∧ (x * 10).den = 1) := by
  refine ⟨fun vd => rfl, fun sd => ?_, fun s v h => ?_, fun s v h hpos => ?_⟩
  · cases sd <;> rfl
  · simp only [compute_pulse_scoreE, if_pos h]
  · refine ⟨(List.range (min s.values.length v.values.length)).map
        (pulseScoreAt s.values v.values s.volumes), ?_, ?_, ?_, ?_⟩
    · rw [compute_pulse_scoreE_eq_ok s v hpos, compute_pulse_score_some s v h]
    · exact compute_pulse_score_some s v h
    · simp
    · intro x hx
      simp only [List.mem_map, List.mem_range] at hx
      obtain ⟨i, _, rfl⟩ := hx
      exact pulseScoreAt_bounds _ _ _ i

/-- Witness for C2 at 1-point (NoResult) and positive 20-point inputs. -/
theorem compute_pulse_score_contract_witness :
    compute_pulse_scoreE (some ⟨["d"], [100], [], false⟩)
      (some ⟨["d"], [12], [], false⟩) = .ok none ∧
    ∃ scores,
      compute_pulse_scoreE
        (some ⟨List.replicate 20 "d", List.replicate 20 (100 : ℚ), [], false⟩)
        (some ⟨List.replicate 20 "d", List.replicate 20 (12 : ℚ), [], false⟩) =
        .ok (some scores) ∧
      compute_pulse_score
        (some ⟨List.replicate 20 "d", List.replicate 20 (100 : ℚ), [], false⟩)
        (some ⟨List.replicate 20 "d", List.replicate 20 (12 : ℚ), [], false⟩) =
        some scores ∧
      scores.length = 20 ∧ ∀ x ∈ scores, 0 ≤ x ∧ x ≤ 100 ∧ (x * 10).den = 1 := by
  constructor
  · exact compute_pulse_score_contract.2.2.1 _ _ (by decide)
  · have h := compute_pulse_score_contract.2.2.2
      ⟨List.replicate 20 "d", List.replicate 20 (100 : ℚ), [], false⟩
      ⟨List.replicate 20 "d", List.replicate 20 (12 : ℚ), [], false⟩ (by simp)
      (fun x hx => by rw [List.eq_of_mem_replicate hx]; norm_num)
    simpa using h

/-! ## Constant-series evaluation of the scoring engine (claim C3) -/

theorem drop_take_replicate (c : ℚ) {n k m : ℕ} (h : k + m ≤ n) :
    ((List.replicate n c).drop k).take m = List.replicate m c := by
  rw [List.drop_replicate, List.take_replicate]
  congr 1
  omega

theorem sum_drop_take_replicate (c : ℚ) {n k m : ℕ} (h : k + m ≤ n) :
    (((List.replicate n c).drop k).take m).sum = (m : ℚ) * c := by
  rw [drop_take_replicate c h, List.sum_replicate, nsmul_eq_mul]

theorem clamp0100_of_le {x : ℚ} (h0 : 0 ≤ x) (h1 : x ≤ 100) : clamp0100 x = x := by
  unfold clamp0100
  rw [min_eq_right h1, max_eq_right h0]

theorem clamp_50 : clamp0100 50 = 50 := clamp0100_of_le (by norm_num) (by norm_num)

theorem clamp_100 : clamp0100 100 = 100 := clamp0100_of_le (by norm_num) (by norm_num)

/-- On a constant benchmark and a volatility index pinned at 12, the active
signals are: trend 50, momentum 50, volatility level 100, direction 50. -/
theorem pulseSignals_const12 (c : ℚ) {n i : ℕ} (hi : i < n) :
    pulseSignals (List.replicate n c) (List.replicate n 12) [] i =
      (if 20 ≤ i then [("trend", (50 : ℚ), (1/4 : ℚ))] else []) ++
      (if 10 ≤ i then [("momentum", (50 : ℚ), (1/5 : ℚ))] else []) ++
      [("volatility", (100 : ℚ), (1/4 : ℚ))] ++
      (if 5 ≤ i then [("vix_direction", (50 : ℚ), (3/20 : ℚ))] else []) := by
  have hgc : (List.replicate n c).getD i 0 = c := getD_replicate c 0 n i hi
  have hgc1 : (List.replicate n c).getD (i - 1) 0 = c := getD_replicate c 0 n _ (by omega)
  have hgc10 : (List.replicate n c).getD (i - 10) 0 = c := getD_replicate c 0 n _ (by omega)
  have hg12a : (List.replicate n (12 : ℚ)).getD (min i (n - 1)) 0 = 12 :=
    getD_replicate 12 0 n _ (by omega)
  have hg12b : (List.replicate n (12 : ℚ)).getD (min (i - 5) (n - 1)) 0 = 12 :=
    getD_replicate 12 0 n _ (by omega)
  simp only [pulseSignals, List.length_replicate, List.isEmpty_nil, not_true, and_false,
    if_false, List.append_nil, hi, and_true, hgc, hgc1, hgc10, hg12a, hg12b]
  have e12 : ((12 : ℚ) - 12) / 12 * 100 = 0 := by norm_num
  by_cases h20 : 20 ≤ i
  · have h10 : 10 ≤ i := by omega
    have h5 : 5 ≤ i := by omega
    rw [sum_drop_take_replicate c (by omega)]
    have e1 : (((20 : ℕ) : ℚ)) * c / 20 = c := by push_cast; ring
    rw [e1]
    simp only [h20, h10, h5, ite_true, e12, sub_self, zero_div, zero_mul, mul_zero,
      add_zero, sub_zero, ne_eq, OfNat.ofNat_ne_zero, not_false_iff, if_true]
    norm_num [clamp_50, clamp_100]
  · by_cases h10 : 10 ≤ i
    · have h5 : 5 ≤ i := by omega
      simp only [h20, h10, h5, ite_true, ite_false, e12, sub_self, zero_div, zero_mul,
        mul_zero, add_zero, sub_zero, ne_eq, OfNat.ofNat_ne_zero, not_false_iff, if_true,
        if_false]
      norm_num [clamp_50, clamp_100]
    · by_cases h5 : 5 ≤ i
      · simp only [h20, h10, h5, ite_true, ite_false, e12, sub_self, zero_div, zero_mul,
          mul_zero, add_zero, sub_zero, ne_eq, OfNat.ofNat_ne_zero, not_false_iff, if_true,
          if_false]
        norm_num [clamp_50, clamp_100]
      · simp only [h20, h10, h5, ite_false, if_false]
        norm_num [clamp_100]

/-- The aggregate scores produced on that input: 100 before any lookback,
81.2 once direction joins, 70.8 once momentum joins, 64.7 with full
lookback. -/
theorem pulseScoreAt_const12 (c : ℚ) {n i : ℕ} (hi : i < n) :
    pulseScoreAt (List.replicate n c) (List.replicate n 12) [] i =
      if i < 5 then 100 else if i < 10 then 406/5 else if i < 20 then 354/5 else 647/10 := by
  unfold pulseScoreAt
  rw [pulseSignals_const12 c hi]
  by_cases h20 : 20 ≤ i
  · rw [if_pos h20, if_pos (by omega : 10 ≤ i), if_pos (by omega : 5 ≤ i),
      if_neg (by omega : ¬i < 5), if_neg (by omega : ¬i < 10), if_neg (by omega : ¬i < 20)]
    norm_num [pyRound, pyRoundInt]
  · by_cases h10 : 10 ≤ i
    · rw [if_neg h20, if_pos h10, if_pos (by omega : 5 ≤ i),
        if_neg (by omega : ¬i < 5), if_neg (by omega : ¬i < 10), if_pos (by omega : i < 20)]
      norm_num [pyRound, pyRoundInt]
    · by_cases h5 : 5 ≤ i
      · rw [if_neg h20, if_neg h10, if_pos h5,
          if_neg (by omega : ¬i < 5), if_pos (by omega : i < 10)]
        norm_num [pyRound, pyRoundInt]
      · rw [if_neg h20, if_neg h10, if_neg h5, if_pos (by omega : i < 5)]
        norm_num [pyRound, pyRoundInt]

theorem getD_map_range (f : ℕ → ℚ) {n i : ℕ} (h : i < n) :
    ((List.range n).map f).getD i 0 = f i := by
  rw [List.getD_eq_getElem?_getD, List.getElem?_map, List.getElem?_range h]
  rfl

/-- C3 (counterexample).  On a constant benchmark of 100 and a volatility
index pinned at 12 (n = 25), the sub-signal scores at the last index are
trend 50, momentum 50, volatility level **100** and direction 50 — not all
50 — and the aggregate score there is 64.7, not 50.0. -/
theorem pulse_const12_not_all_50 :
    (pulseSignals (List.replicate 25 (100 : ℚ)) (List.replicate 25 (12 : ℚ)) [] 24).map
        (fun s => s.2.1) = [50, 50, 100, 50] ∧
    ((compute_pulse_score
        (some ⟨List.replicate 25 "d", List.replicate 25 (100 : ℚ), [], false⟩)
        (some ⟨List.replicate 25 "d", List.replicate 25 (12 : ℚ), [], false⟩)).getD []).getD
        24 0 = 647/10 ∧
    (647/10 : ℚ) ≠ 50 := by
  refine ⟨?_, ?_, by norm_num⟩
  · rw [pulseSignals_const12 100 (by norm_num : (24 : ℕ) < 25)]
    norm_num
  · simp only [compute_pulse_score, List.length_replicate, min_self]
    rw [if_neg (by norm_num)]
    simp only [Option.getD_some]
    rw [getD_map_range _ (by norm_num : (24 : ℕ) < 25)]
    rw [pulseScoreAt_const12 100 (by norm_num : (24 : ℕ) < 25)]
    norm_num

/-- C3 (amended).  With a constant positive benchmark and the volatility
index pinned at 12 and `n ≥ 20` aligned points: the trend and momentum
sub-signals evaluate to 50, but the volatility-level sub-signal evaluates to
100, and the aggregate pulse scores are 100.0 before any lookback (i &lt; 5),
81.2 for 5 ≤ i &lt; 10, 70.8 for 10 ≤ i &lt; 20, and 64.7 with full lookback
(i ≥ 20) — not 50.0.  (`0 < c` mirrors the price series the source divides
by; at `c = 0` the Python code would raise `ZeroDivisionError`.) -/
theorem pulse_const12_values (c : ℚ) (n : ℕ) (_hc : 0 < c) (hn : 20 ≤ n) :
    compute_pulse_score
        (some ⟨List.replicate n "d", List.replicate n c, [], false⟩)
        (some ⟨List.replicate n "d", List.replicate n 12, [], false⟩) =
      some ((List.range n).map (fun i =>
        if i < 5 then 100 else if i < 10 then 406/5 else if i < 20 then 354/5
        else 647/10)) ∧
    ∀ i, 20 ≤ i → i < n →
      pulseSignals (List.replicate n c) (List.replicate n 12) [] i =
        [("trend", 50, 1/4), ("momentum", 50, 1/5),
         ("volatility", 100, 1/4), ("vix_direction", 50, 3/20)] := by
  constructor
  · simp only [compute_pulse_score, List.length_replicate, min_self]
    rw [if_neg (Nat.not_lt.mpr hn)]
    congr 1
    apply map_congr_mem
    intro i hi
    exact pulseScoreAt_const12 c (List.mem_range.mp hi)
  · intro i h20 hin
    rw [pulseSignals_const12 c hin]
    simp [h20, (by omega : 10 ≤ i), (by omega : 5 ≤ i)]

/-- Witness for C3 (amended) at `c = 100`, `n = 25`. -/
theorem pulse_const12_values_witness :
    compute_pulse_score
        (some ⟨List.replicate 25 "d", List.replicate 25 (100 : ℚ), [], false⟩)
        (some ⟨List.replicate 25 "d", List.replicate 25 (12 : ℚ), [], false⟩) =
      some ((List.range 25).map (fun i =>
        if i < 5 then 100 else if i < 10 then 406/5 else if i < 20 then 354/5
        else 647/10)) ∧
    ∀ i, 20 ≤ i → i < 25 →
      pulseSignals (List.replicate 25 (100 : ℚ)) (List.replicate 25 (12 : ℚ)) [] i =
        [("trend", 50, 1/4), ("momentum", 50, 1/5),
         ("volatility", 100, 1/4), ("vix_direction", 50, 3/20)] :=
  pulse_const12_values 100 25 (by norm_num) (by norm_num)

/-! ## Truncation to the shorter series (claim C8) -/

/-- C8 (counterexample).  Benchmark of 30 points, volatility of 25 points:
the engine produces 25 scores, not 30 — no benchmark index beyond the
volatility series' end is scored. -/
theorem pulse_no_scores_beyond_vol_end :
    (compute_pulse_score
        (some ⟨List.replicate 30 "d", List.replicate 30 (100 : ℚ), [], false⟩)
        (some ⟨List.replicate 25 "d", List.replicate 25 (12 : ℚ), [], false⟩)).map
        List.length = some 25 ∧
    (List.replicate 30 (100 : ℚ)).length = 30 ∧ (25 : ℕ) ≠ 30 := by
  refine ⟨?_, by simp, by norm_num⟩
  rw [compute_pulse_score_some _ _ (by simp)]
  simp

/-- C8 (amended).  When the volatility series is strictly shorter (with at
least 20 points) and the benchmark values are positive (excluding the
loop's `ZeroDivisionError`), the scored range is truncated to
`n = min(len(benchmark), len(volatility)) = len(volatility)`: the loop runs
over `range(n)` only, so the clamp `vix_vals[min(i, len(vix_vals)-1)]` in
the source never changes the index. -/
theorem pulse_truncates_to_shorter (s v : TimeSeries)
    (hlt : v.values.length < s.values.length) (h20 : 20 ≤ v.values.length)
    (hpos : ∀ x ∈ s.values, 0 < x) :
    ∃ scores, compute_pulse_scoreE (some s) (some v) = .ok (some scores) ∧
      compute_pulse_score (some s) (some v) = some scores ∧
      scores.length = v.values.length ∧ scores.length < s.values.length := by
  have hmin : min s.values.length v.values.length = v.values.length := by omega
  refine ⟨_, ?_, compute_pulse_score_some s v (by omega), ?_, ?_⟩
  · rw [compute_pulse_scoreE_eq_ok s v hpos, compute_pulse_score_some s v (by omega)]
  · simp [hmin]
  · simp [hmin, hlt]

/-- Witness for C8 (amended) at 30 benchmark / 25 volatility points. -/
theorem pulse_truncates_to_shorter_witness :
    ∃ scores, compute_pulse_scoreE
        (some ⟨List.replicate 30 "d", List.replicate 30 (100 : ℚ), [], false⟩)
        (some ⟨List.replicate 25 "d", List.replicate 25 (12 : ℚ), [], false⟩) =
        .ok (some scores) ∧
      compute_pulse_score
        (some ⟨List.replicate 30 "d", List.replicate 30 (100 : ℚ), [], false⟩)
        (some ⟨List.replicate 25 "d", List.replicate 25 (12 : ℚ), [], false⟩) = some scores ∧
      scores.length = 25 ∧ scores.length < 30 := by
  have h := pulse_truncates_to_shorter
    ⟨List.replicate 30 "d", List.replicate 30 (100 : ℚ), [], false⟩
    ⟨List.replicate 25 "d", List.replicate 25 (12 : ℚ), [], false⟩
    (by simp) (by simp)
    (fun x hx => by rw [List.eq_of_mem_replicate hx]; norm_num)
  simpa using h

/-! ## Trend Regime prediction (claim C6) -/

theorem lastD_concat (b : ℚ) (l : List ℚ) : lastD (l ++ [b]) = b := by
  simp [lastD]

/-- The `[-1]`, `[-20:]` and `[-50:]` reads on a 49-constant-then-one list. -/
theorem sums_of_replicate_concat (a b : ℚ) :
    lastD (List.replicate 49 a ++ [b]) = b ∧
    (takeLast 20 (List.replicate 49 a ++ [b])).sum = 19 * a + b ∧
    (takeLast 50 (List.replicate 49 a ++ [b])).sum = 49 * a + b := by
  refine ⟨lastD_concat b _, ?_, ?_⟩
  · unfold takeLast
    rw [(by simp : (List.replicate 49 a ++ [b]).length = 50)]
    rw [(by norm_num : 50 - 20 = 30), List.drop_append_eq_append_drop, List.drop_replicate]
    norm_num [List.sum_append, List.sum_replicate, nsmul_eq_mul]
  · unfold takeLast
    rw [(by simp : (List.replicate 49 a ++ [b]).length = 50)]
    rw [(by norm_num : 50 - 50 = 0), List.drop_zero]
    norm_num [List.sum_append, List.sum_replicate, nsmul_eq_mul]

/-- C6 (counterexample).  On 49 points at 94973 followed by 95513 the code
yields BULLISH with confidence `60 + int(2.7) = 62`, while the claimed
formula `min(85, 60 + round(500 × relative_gap))` gives 63. -/
theorem trend_conf_int_vs_round :
    (trendPrediction (List.replicate 49 (94973 : ℚ) ++ [95513])).direction =
      Direction.BULLISH ∧
    (trendPrediction (List.replicate 49 (94973 : ℚ) ++ [95513])).confidence = 62 ∧
    min 85 (60 + pyRoundInt ((lastD (List.replicate 49 (94973 : ℚ) ++ [95513]) /
      ((takeLast 20 (List.replicate 49 (94973 : ℚ) ++ [95513])).sum / 20) - 1) * 500)) =
      63 := by
  obtain ⟨hv, h20, h50⟩ := sums_of_replicate_concat (94973 : ℚ) 95513
  have hs20 : (takeLast 20 (List.replicate 49 (94973 : ℚ) ++ [95513])).sum / 20 = 95000 := by
    rw [h20]; norm_num
  have hs50 : (takeLast 50 (List.replicate 49 (94973 : ℚ) ++ [95513])).sum / 50 =
      474919/5 := by
    rw [h50]; norm_num
  refine ⟨?_, ?_, ?_⟩
  · show trendDirection _ = Direction.BULLISH
    unfold trendDirection
    rw [hv, hs20, hs50]
    rw [if_pos (by norm_num : (95000 : ℚ) < 95513 ∧ (474919 : ℚ)/5 < 95000)]
  · show trendConfidence _ = 62
    unfold trendConfidence
    rw [hv, hs20]
    rw [if_pos (by rw [hs50]; norm_num : (95000 : ℚ) < 95513 ∧
      (takeLast 50 (List.replicate 49 (94973 : ℚ) ++ [95513])).sum / 50 < 95000)]
    norm_num [pyInt]
  · rw [hv, hs20]
    norm_num [pyRoundInt]

/-- C6 (amended).  For a benchmark series of at least 50 points, the Trend
Regime card is BULLISH iff strictly `value &gt; sma20 &gt; sma50` and BEARISH iff
strictly `value &lt; sma20 &lt; sma50` (else NEUTRAL, confidence 45); when the
20-day SMA is non-zero the BULLISH/BEARISH confidence is
`min(85, 60 + int(500 × relative_gap))` — `int()` truncates toward zero, it
does not round — and when the 20-day SMA is zero the non-neutral branches
raise `ZeroDivisionError` instead of producing a confidence. -/
theorem trendPrediction_spec (vals : List ℚ) (h50 : 50 ≤ vals.length) :
    ((trendPrediction vals).direction = Direction.BULLISH ↔
      (takeLast 20 vals).sum / 20 < lastD vals ∧
      (takeLast 50 vals).sum / 50 < (takeLast 20 vals).sum / 20) ∧
    ((trendPrediction vals).direction = Direction.BEARISH ↔
      lastD vals < (takeLast 20 vals).sum / 20 ∧
      (takeLast 20 vals).sum / 20 < (takeLast 50 vals).sum / 50) ∧
    ((takeLast 20 vals).sum / 20 ≠ 0 →
      (takeLast 20 vals).sum / 20 < lastD vals ∧
        (takeLast 50 vals).sum / 50 < (takeLast 20 vals).sum / 20 →
      (trendPrediction vals).confidence =
        min 85 (60 + pyInt ((lastD vals / ((takeLast 20 vals).sum / 20) - 1) * 500)) ∧
      trendConfidenceE vals = .ok (trendPrediction vals).confidence) ∧
    ((takeLast 20 vals).sum / 20 ≠ 0 →
      lastD vals < (takeLast 20 vals).sum / 20 ∧
        (takeLast 20 vals).sum / 20 < (takeLast 50 vals).sum / 50 →
      (trendPrediction vals).confidence =
        min 85 (60 + pyInt ((1 - lastD vals / ((takeLast 20 vals).sum / 20)) * 500)) ∧
      trendConfidenceE vals = .ok (trendPrediction vals).confidence) ∧
    ((trendPrediction vals).direction = Direction.NEUTRAL →
      (trendPrediction vals).confidence = 45 ∧ trendConfidenceE vals = .ok 45) ∧
    ((takeLast 20 vals).sum / 20 = 0 →
      (trendPrediction vals).direction ≠ Direction.NEUTRAL →
      trendConfidenceE vals = .error .zeroDivisionError) ∧
    (∀ (d : List String) (vol : List ℚ) (px : Bool),
      compute_predictions (some ⟨d, vals, vol, px⟩) none none = [trendPrediction vals]) := by
  refine ⟨?_, ?_, ?_, ?_, ?_, ?_, ?_⟩
  · show trendDirection vals = Direction.BULLISH ↔ _
    unfold trendDirection
    split_ifs with h1 h2
    · simp [h1]
    · simp [h1]
    · simp [h1]
  · show trendDirection vals = Direction.BEARISH ↔ _
    unfold trendDirection
    split_ifs with h1 h2
    · constructor
      · intro hc
        simp at hc
      · intro hc
        exact absurd hc.1 (lt_asymm h1.1)
    · simp [h2]
    · simp [h2]
  · intro hsz hc
    constructor
    · show trendConfidence vals = _
      unfold trendConfidence
      rw [if_pos hc]
    · show trendConfidenceE vals = .ok (trendConfidence vals)
      unfold trendConfidenceE trendConfidence
      rw [if_pos hc, if_pos hc]
      unfold qdiv
      rw [if_neg hsz]
  · intro hsz hc
    have hnb : ¬((takeLast 20 vals).sum / 20 < lastD vals ∧
        (takeLast 50 vals).sum / 50 < (takeLast 20 vals).sum / 20) :=
      fun hb => (lt_asymm hc.1) hb.1
    constructor
    · show trendConfidence vals = _
      unfold trendConfidence
      rw [if_neg hnb, if_pos hc]
    · show trendConfidenceE vals = .ok (trendConfidence vals)
      unfold trendConfidenceE trendConfidence
      rw [if_neg hnb, if_neg hnb, if_pos hc, if_pos hc]
      unfold qdiv
      rw [if_neg hsz]
  · intro h
    have h2 : trendDirection vals = Direction.NEUTRAL := h
    unfold trendDirection at h2
    constructor
    · show trendConfidence vals = 45
      unfold trendConfidence
      split_ifs with hb1 hb2
      · rw [if_pos hb1] at h2
        exact Direction.noConfusion h2
      · rw [if_neg hb1, if_pos hb2] at h2
        exact Direction.noConfusion h2
      · rfl
    · show trendConfidenceE vals = .ok 45
      unfold trendConfidenceE
      split_ifs with hb1 hb2
      · rw [if_pos hb1] at h2
        exact Direction.noConfusion h2
      · rw [if_neg hb1, if_pos hb2] at h2
        exact Direction.noConfusion h2
      · rfl
  · intro hz hne
    have hq0 : qdiv (lastD vals) ((takeLast 20 vals).sum / 20) =
        .error .zeroDivisionError := by
      unfold qdiv
      rw [if_pos hz]
    show trendConfidenceE vals = .error .zeroDivisionError
    unfold trendConfidenceE
    split_ifs with hb1 hb2
    · rw [hq0]
    · rw [hq0]
    · exfalso
      apply hne
      show trendDirection vals = Direction.NEUTRAL
      unfold trendDirection
      rw [if_neg hb1, if_neg hb2]
  · intro d vol px
    simp [compute_predictions, h50]

/-- Witness for C6 (amended) at 49 points of 100 followed by 110 (the
spec's own example, confidence capped at 85), plus the zero-SMA crash at 49
points of −1 followed by 19 (sma20 = 0, direction BULLISH). -/
theorem trendPrediction_spec_witness :
    (trendPrediction (List.replicate 49 (100 : ℚ) ++ [110])).direction =
      Direction.BULLISH ∧
    (trendPrediction (List.replicate 49 (100 : ℚ) ++ [110])).confidence = 85 ∧
    trendConfidenceE (List.replicate 49 (100 : ℚ) ++ [110]) = .ok 85 ∧
    trendConfidenceE (List.replicate 49 (-1 : ℚ) ++ [19]) =
      .error .zeroDivisionError := by
  obtain ⟨hv, h20, h50⟩ := sums_of_replicate_concat (100 : ℚ) 110
  have hs := trendPrediction_spec (List.replicate 49 (100 : ℚ) ++ [110]) (by simp)
  have hcond : (takeLast 20 (List.replicate 49 (100 : ℚ) ++ [110])).sum / 20 <
      lastD (List.replicate 49 (100 : ℚ) ++ [110]) ∧
      (takeLast 50 (List.replicate 49 (100 : ℚ) ++ [110])).sum / 50 <
      (takeLast 20 (List.replicate 49 (100 : ℚ) ++ [110])).sum / 20 := by
    rw [hv, h20, h50]
    norm_num
  have hsz : (takeLast 20 (List.replicate 49 (100 : ℚ) ++ [110])).sum / 20 ≠ 0 := by
    rw [h20]
    norm_num
  obtain ⟨hconf, hE⟩ := hs.2.2.1 hsz hcond
  have hc85 : (trendPrediction (List.replicate 49 (100 : ℚ) ++ [110])).confidence = 85 := by
    rw [hconf, hv, h20]
    norm_num [pyInt]
  refine ⟨hs.1.mpr hcond, hc85, ?_, ?_⟩
  · rw [hE, hc85]
  · obtain ⟨hv2, h20b, h50b⟩ := sums_of_replicate_concat (-1 : ℚ) 19
    have hs2 := trendPrediction_spec (List.replicate 49 (-1 : ℚ) ++ [19]) (by simp)
    have hz : (takeLast 20 (List.replicate 49 (-1 : ℚ) ++ [19])).sum / 20 = 0 := by
      rw [h20b]
      norm_num
    have hcond2 : (takeLast 20 (List.replicate 49 (-1 : ℚ) ++ [19])).sum / 20 <
        lastD (List.replicate 49 (-1 : ℚ) ++ [19]) ∧
        (takeLast 50 (List.replicate 49 (-1 : ℚ) ++ [19])).sum / 50 <
        (takeLast 20 (List.replicate 49 (-1 : ℚ) ++ [19])).sum / 20 := by
      rw [hv2, h20b, h50b]
      norm_num
    refine hs2.2.2.2.2.2.1 hz ?_
    rw [hs2.1.mpr hcond2]
    simp

/-! ## Concrete transport responses used in several theorems -/

theorem tsToDate_zero : tsToDate 0 = "1970-01-01" := by
  unfold tsToDate civilFromDays
  norm_num
  decide

theorem polygon_aggs_none (k : Bool) : polygon_aggs k none = .ok none := by
  cases k <;> rfl

theorem yahoo_chart_none : _yahoo_chart none = .ok none := rfl

/-- A minimal well-formed Yahoo v8 chart response with one bar closing at `c`
at epoch second `ts`. -/
def chartResponseTs (ts c : ℚ) : JVal :=
  .obj [("chart", .obj [("result", .arr [.obj [
    ("timestamp", .arr [.num ts]),
    ("indicators", .obj [("quote", .arr [.obj [("close", .arr [.num c])]])])]])])]

/-- The same response at epoch 0. -/
def chartResponse (c : ℚ) : JVal := chartResponseTs 0 c

theorem yahooCollect_chartTs (ts c : ℚ) :
    yahooCollect [(JVal.num ts, JVal.num c)] ([], []) =
      (match fromtimestampQ ts with
       | .error e => .error e
       | .ok d => .ok ([d], [pyRound c 4])) := rfl

theorem yahooTry_chartTs_step (ts c : ℚ) :
    yahooTry (chartResponseTs ts c) =
      (match yahooCollect [(JVal.num ts, JVal.num c)] ([], []) with
       | .error e => .error e
       | .ok (dates, values) =>
         if !values.isEmpty then .ok (some ⟨dates, values, [], false⟩)
         else .ok (none : Option TimeSeries)) := rfl

theorem yahoo_chart_ts_ok (ts c : ℚ) (d : String)
    (hft : fromtimestampQ ts = .ok d) :
    _yahoo_chart (some (chartResponseTs ts c)) =
      .ok (some ⟨[d], [pyRound c 4], [], false⟩) := by
  have ht : pyTruthy (chartResponseTs ts c) = true := rfl
  have htry : yahooTry (chartResponseTs ts c) =
      .ok (some ⟨[d], [pyRound c 4], [], false⟩) := by
    rw [yahooTry_chartTs_step, yahooCollect_chartTs, hft]
    rfl
  simp only [_yahoo_chart, ht, Bool.not_true, Bool.false_eq_true, if_false, htry]

theorem yahoo_chart_ts_value_error (ts c : ℚ)
    (hft : fromtimestampQ ts = .error .valueError) :
    _yahoo_chart (some (chartResponseTs ts c)) = .error .valueError := by
  have ht : pyTruthy (chartResponseTs ts c) = true := rfl
  have htry : yahooTry (chartResponseTs ts c) = .error .valueError := by
    rw [yahooTry_chartTs_step, yahooCollect_chartTs, hft]
  simp only [_yahoo_chart, ht, Bool.not_true, Bool.false_eq_true, if_false, htry]

theorem fromtimestampQ_zero : fromtimestampQ 0 = .ok (tsToDate 0) := by
  simp only [fromtimestampQ]
  norm_num

theorem yahoo_chart_single (c : ℚ) :
    _yahoo_chart (some (chartResponse c)) =
      .ok (some ⟨[tsToDate 0], [pyRound c 4], [], false⟩) :=
  yahoo_chart_ts_ok 0 c (tsToDate 0) fromtimestampQ_zero

/-! ## The 10-year-yield unit fix-up (claim C7) -/

/-- C7 (counterexample).  A Yahoo `^TNX` series whose reported (yield × 10)
last value is 8 is **not** divided by 10: the resolver validates and returns
the raw value 8, not 0.8. -/
theorem tnx_no_division_at_or_below_10 :
    fetch_treasury_10y true none (some (chartResponse 8)) none =
      .ok (some ⟨["1970-01-01"], [8], [], false⟩) ∧
    ([8] : List ℚ) ≠ [pyRound (8/10) 3] := by
  constructor
  · have hy : _yahoo_chart (some (chartResponse 8)) =
        .ok (some ⟨["1970-01-01"], [8], [], false⟩) := by
      rw [yahoo_chart_single, tsToDate_zero]
      norm_num [pyRound, pyRoundInt]
    simp only [fetch_treasury_10y, polygon_aggs_none true, hy]
    norm_num [tnxAccept, tnxAdjust, lastD]
  · simp only [List.map_cons, ne_eq, List.cons.injEq]
    norm_num [pyRound, pyRoundInt]

/-- Reduction of `fetch_treasury_10y` once the primary failed and the Yahoo
source parsed. -/
theorem fetch_tnx_reduce (k : Bool) (jp jy jt : Option JVal)
    (p : Option TimeSeries) (y : TimeSeries)
    (hp : polygon_aggs k jp = .ok p) (hpf : tnxAccept p = false)
    (hy : _yahoo_chart jy = .ok (some y)) :
    fetch_treasury_10y k jp jy jt =
      (if !y.values.isEmpty then
        (if decide (1/2 < lastD (tnxAdjust y).values) &&
            decide (lastD (tnxAdjust y).values < 15) then
          Except.ok (some (tnxAdjust y))
        else
          match polygon_aggs k jt with
          | .error e => .error e
          | .ok _ => .ok none)
      else
        match polygon_aggs k jt with
        | .error e => .error e
        | .ok _ => .ok none) := by
  unfold fetch_treasury_10y
  rw [hp]
  simp only [hpf, Bool.false_eq_true, if_false]
  rw [hy]

/-- C7 (amended).  The Yahoo `^TNX` values are divided by 10 (each rounded
to 3 digits) **only when the reported last value exceeds 10**, before the
`(0.5, 15)` range check; a reported last value of 10 or below is validated
and returned raw. -/
theorem tnx_unit_fix_spec (k : Bool) (jp jy jt : Option JVal)
    (p : Option TimeSeries) (y : TimeSeries)
    (hp : polygon_aggs k jp = .ok p) (hpf : tnxAccept p = false)
    (hy : _yahoo_chart jy = .ok (some y)) (hne : y.values ≠ []) :
    (10 < lastD y.values →
      1/2 < lastD (y.values.map (fun v => pyRound (v / 10) 3)) →
      lastD (y.values.map (fun v => pyRound (v / 10) 3)) < 15 →
      fetch_treasury_10y k jp jy jt =
        .ok (some { y with values := y.values.map (fun v => pyRound (v / 10) 3) })) ∧
    (lastD y.values ≤ 10 → 1/2 < lastD y.values →
      fetch_treasury_10y k jp jy jt = .ok (some y)) := by
  rw [fetch_tnx_reduce k jp jy jt p y hp hpf hy]
  rw [if_pos (by simpa [List.isEmpty_eq_false] using hne)]
  constructor
  · intro h10 ha hb
    have hadj : tnxAdjust y = { y with values := y.values.map (fun v => pyRound (v / 10) 3) } := by
      unfold tnxAdjust
      rw [if_pos h10]
    rw [hadj]
    simp only [Bool.and_eq_true, decide_eq_true_eq]
    rw [if_pos ⟨ha, hb⟩]
  · intro h10 ha
    have hadj : tnxAdjust y = y := by
      unfold tnxAdjust
      rw [if_neg (not_lt.mpr h10)]
    rw [hadj]
    simp only [Bool.and_eq_true, decide_eq_true_eq]
    rw [if_pos ⟨ha, lt_of_le_of_lt h10 (by norm_num)⟩]

/-- Witness for C7 (amended): a reported 45.0 becomes 4.5% before the range
check; a reported 8.0 is returned raw. -/
theorem tnx_unit_fix_spec_witness :
    fetch_treasury_10y true none (some (chartResponse 45)) none =
      .ok (some ⟨["1970-01-01"], [pyRound ((45 : ℚ) / 10) 3], [], false⟩) ∧
    fetch_treasury_10y true none (some (chartResponse 8)) none =
      .ok (some ⟨["1970-01-01"], [8], [], false⟩) := by
  have hy45 : _yahoo_chart (some (chartResponse 45)) =
      .ok (some ⟨["1970-01-01"], [45], [], false⟩) := by
    rw [yahoo_chart_single, tsToDate_zero]
    norm_num [pyRound, pyRoundInt]
  have hy8 : _yahoo_chart (some (chartResponse 8)) =
      .ok (some ⟨["1970-01-01"], [8], [], false⟩) := by
    rw [yahoo_chart_single, tsToDate_zero]
    norm_num [pyRound, pyRoundInt]
  constructor
  · have h := (tnx_unit_fix_spec true none (some (chartResponse 45)) none none
      ⟨["1970-01-01"], [45], [], false⟩ (polygon_aggs_none true) rfl hy45 (by simp)).1
      (by norm_num [lastD])
      (by norm_num [lastD, pyRound, pyRoundInt])
      (by norm_num [lastD, pyRound, pyRoundInt])
    simpa using h
  · exact (tnx_unit_fix_spec true none (some (chartResponse 8)) none none
      ⟨["1970-01-01"], [8], [], false⟩ (polygon_aggs_none true) rfl hy8 (by simp)).2
      (by norm_num [lastD]) (by norm_num [lastD])

/-! ## The resolver's acceptance checks versus the documented ranges
(claim C1) -/

/-- A minimal well-formed Polygon aggregates response with one bar closing
at `c` at epoch 0 with volume 1. -/
def polyBars (c : ℚ) : JVal :=
  .obj [("results", .arr [.obj [("t", .num 0), ("c", .num c), ("v", .num 1)]])]

theorem polygon_aggs_single (c : ℚ) :
    polygon_aggs true (some (polyBars c)) =
      .ok (some ⟨[tsToDate (0 / 1000)], [c], [1], false⟩) := by
  have hmap : mapME polygonBarDate
      [JVal.obj [("t", JVal.num 0), ("c", JVal.num c), ("v", JVal.num 1)]] =
      (match fromtimestampQ ((0 : ℚ) / 1000) with
       | .error e => .error e
       | .ok d => .ok [d]) := by with_unfolding_all rfl
  have hstep : polygon_aggs true (some (polyBars c)) =
      (match mapME polygonBarDate
          [JVal.obj [("t", JVal.num 0), ("c", JVal.num c), ("v", JVal.num 1)]] with
       | .error e => .error e
       | .ok dates => .ok (some ⟨dates, [c], [1], false⟩)) := by with_unfolding_all rfl
  have hft : fromtimestampQ ((0 : ℚ) / 1000) = .ok (tsToDate ((0 : ℚ) / 1000)) := by
    simp only [fromtimestampQ]
    norm_num
  rw [hstep, hmap, hft]

theorem polygon_aggs_single_date (c : ℚ) :
    polygon_aggs true (some (polyBars c)) =
      .ok (some ⟨["1970-01-01"], [c], [1], false⟩) := by
  rw [polygon_aggs_single c, (by norm_num : (0 : ℚ) / 1000 = 0), tsToDate_zero]

/-- C1 (counterexample).  The primary VIX source returns a series ending at
150 — outside the documented plausibility range (5, 100) — while the
later-configured Yahoo source returns 20, inside it.  `fetch_vix` accepts
and returns the out-of-range primary series (its check is only `> 5`). -/
theorem vix_resolver_returns_out_of_range_primary :
    fetch_vix true (some (polyBars 150)) (some (chartResponse 20)) =
      .ok (some ⟨["1970-01-01"], [150], [1], false⟩) ∧
    ¬((5 : ℚ) < 150 ∧ (150 : ℚ) < 100) ∧
    _yahoo_chart (some (chartResponse 20)) =
      .ok (some ⟨["1970-01-01"], [20], [], false⟩) ∧
    ((5 : ℚ) < 20 ∧ (20 : ℚ) < 100) := by
  have hy : _yahoo_chart (some (chartResponse 20)) =
      .ok (some ⟨["1970-01-01"], [20], [], false⟩) := by
    rw [yahoo_chart_single, tsToDate_zero]
    norm_num [pyRound, pyRoundInt]
  refine ⟨?_, by norm_num, hy, by norm_num⟩
  simp only [fetch_vix, polygon_aggs_single_date 150]
  have hacc : vixAccept (some ⟨["1970-01-01"], [150], [1], false⟩) = true := by
    simp [vixAccept, lastD]
    norm_num
  rw [hacc]
  rfl

/-- C1 (amended).  The resolver returns the first source passing that
fetcher's own acceptance check; only the 10-year yield's check is the
documented range `(0.5, 15)`, while VIX / DXY / oil check only `&gt; 5` /
`&gt; 50` / `&gt; 10`.  When the primary fails its own check and a later source
passes its own, the later source's (unit-adjusted) series is returned. -/
theorem resolver_fallback_spec :
    (∀ (k : Bool) (jp jy : Option JVal) (p y : Option TimeSeries),
      polygon_aggs k jp = .ok p → _yahoo_chart jy = .ok y →
      vixAccept p = false → vixAccept y = true →
      fetch_vix k jp jy = .ok y) ∧
    (∀ (k : Bool) (jp jy ju : Option JVal) (p y : Option TimeSeries),
      polygon_aggs k jp = .ok p → _yahoo_chart jy = .ok y →
      dxyAccept p = false → dxyAccept y = true →
      fetch_dxy k jp jy ju = .ok y) ∧
    (∀ (k : Bool) (jy ju : Option JVal) (y : Option TimeSeries) (u : TimeSeries),
      _yahoo_chart jy = .ok y → oilAccept y = false →
      polygon_aggs k ju = .ok (some u) → oilAccept (some u) = true →
      fetch_crude_oil k jy ju = .ok (some { u with is_proxy := true })) ∧
    (∀ (k : Bool) (jp jy jt : Option JVal) (p : Option TimeSeries) (y : TimeSeries),
      polygon_aggs k jp = .ok p → tnxAccept p = false →
      _yahoo_chart jy = .ok (some y) → y.values ≠ [] →
      1/2 < lastD (tnxAdjust y).values → lastD (tnxAdjust y).values < 15 →
      fetch_treasury_10y k jp jy jt = .ok (some (tnxAdjust y))) := by
  refine ⟨?_, ?_, ?_, ?_⟩
  · intro k jp jy p y hp hy hpf hyt
    simp only [fetch_vix, hp, hpf, Bool.false_eq_true, if_false, hy, hyt, if_true]
  · intro k jp jy ju p y hp hy hpf hyt
    simp only [fetch_dxy, hp, hpf, Bool.false_eq_true, if_false, hy, hyt, if_true]
  · intro k jy ju y u hy hyf hu hut
    simp only [fetch_crude_oil, hy, hyf, Bool.false_eq_true, if_false, hu, hut, if_true]
  · intro k jp jy jt p y hp hpf hy hne ha hb
    rw [fetch_tnx_reduce k jp jy jt p y hp hpf hy]
    rw [if_pos (by simpa [List.isEmpty_eq_false] using hne)]
    simp only [Bool.and_eq_true, decide_eq_true_eq]
    rw [if_pos ⟨ha, hb⟩]

/-- Witness for C1 (amended): concrete fallbacks for all four indicators. -/
theorem resolver_fallback_spec_witness :
    fetch_vix true none (some (chartResponse 20)) =
      .ok (some ⟨["1970-01-01"], [20], [], false⟩) ∧
    fetch_dxy true none (some (chartResponse 107)) none =
      .ok (some ⟨["1970-01-01"], [107], [], false⟩) ∧
    fetch_crude_oil true none (some (polyBars 70)) =
      .ok (some ⟨["1970-01-01"], [70], [1], true⟩) ∧
    fetch_treasury_10y true none (some (chartResponse 45)) none =
      .ok (some ⟨["1970-01-01"], [pyRound ((45 : ℚ) / 10) 3], [], false⟩) := by
  have hy20 : _yahoo_chart (some (chartResponse 20)) =
      .ok (some ⟨["1970-01-01"], [20], [], false⟩) := by
    rw [yahoo_chart_single, tsToDate_zero]
    norm_num [pyRound, pyRoundInt]
  have hy107 : _yahoo_chart (some (chartResponse 107)) =
      .ok (some ⟨["1970-01-01"], [107], [], false⟩) := by
    rw [yahoo_chart_single, tsToDate_zero]
    norm_num [pyRound, pyRoundInt]
  have hy45 : _yahoo_chart (some (chartResponse 45)) =
      .ok (some ⟨["1970-01-01"], [45], [], false⟩) := by
    rw [yahoo_chart_single, tsToDate_zero]
    norm_num [pyRound, pyRoundInt]
  refine ⟨?_, ?_, ?_, ?_⟩
  · exact resolver_fallback_spec.1 true none (some (chartResponse 20)) none _
      (polygon_aggs_none true) hy20 rfl
      (by simp [vixAccept, lastD]; norm_num)
  · exact resolver_fallback_spec.2.1 true none (some (chartResponse 107)) none none _
      (polygon_aggs_none true) hy107 rfl
      (by simp [dxyAccept, lastD]; norm_num)
  · exact resolver_fallback_spec.2.2.1 true none (some (polyBars 70)) none _
      yahoo_chart_none rfl (polygon_aggs_single_date 70)
      (by simp [oilAccept, lastD]; norm_num)
  · have h := resolver_fallback_spec.2.2.2 true none (some (chartResponse 45)) none none
      ⟨["1970-01-01"], [45], [], false⟩ (polygon_aggs_none true) rfl hy45 (by simp)
      (by norm_num [tnxAdjust, lastD, pyRound, pyRoundInt])
      (by norm_num [tnxAdjust, lastD, pyRound, pyRoundInt])
    rw [h]
    norm_num [tnxAdjust, lastD]

/-! ## Adapter error behaviour (claim C5)

`_yahoo_chart`'s `except (KeyError, IndexError, TypeError)` covers every
*shape* error its `try:` block can meet, but not the `ValueError` /
`OverflowError` that `datetime.fromtimestamp` raises on a numeric timestamp
outside the calendar range — that class propagates out of the adapter.
`polygon_aggs`, by contrast, has no handler at all. -/

theorem pySubscript_errKinds (j : JVal) (s : String) (e : PyErr)
    (h : pySubscript j s = .error e) :
    e ≠ .attributeError ∧ e ≠ .zeroDivisionError ∧ e ≠ .valueError := by
  unfold pySubscript at h
  repeat' split at h
  all_goals first
    | exact Except.noConfusion h
    | (injection h with h2; subst h2; exact ⟨by simp, by simp, by simp⟩)

theorem pyIndex_errKinds (j : JVal) (i : ℕ) (e : PyErr)
    (h : pyIndex j i = .error e) :
    e ≠ .attributeError ∧ e ≠ .zeroDivisionError ∧ e ≠ .valueError := by
  unfold pyIndex at h
  repeat' split at h
  all_goals first
    | exact Except.noConfusion h
    | (injection h with h2; subst h2; exact ⟨by simp, by simp, by simp⟩)

theorem pyElems_errKinds (j : JVal) (e : PyErr)
    (h : pyElems j = .error e) :
    e ≠ .attributeError ∧ e ≠ .zeroDivisionError ∧ e ≠ .valueError := by
  unfold pyElems at h
  repeat' split at h
  all_goals first
    | exact Except.noConfusion h
    | (injection h with h2; subst h2; exact ⟨by simp, by simp, by simp⟩)

theorem pyNum_errKinds (j : JVal) (e : PyErr)
    (h : pyNum j = .error e) :
    e ≠ .attributeError ∧ e ≠ .zeroDivisionError ∧ e ≠ .valueError := by
  unfold pyNum at h
  repeat' split at h
  all_goals first
    | exact Except.noConfusion h
    | (injection h with h2; subst h2; exact ⟨by simp, by simp, by simp⟩)

theorem pyRoundJ_errKinds (j : JVal) (n : ℕ) (e : PyErr)
    (h : pyRoundJ j n = .error e) :
    e ≠ .attributeError ∧ e ≠ .zeroDivisionError ∧ e ≠ .valueError := by
  unfold pyRoundJ at h
  repeat' split at h
  all_goals first
    | exact Except.noConfusion h
    | (injection h with h2; subst h2; exact pyNum_errKinds _ _ ‹_›)

/-- `pyFromTimestamp` adds `valueError` to the classes the coercion can
produce, but still never `AttributeError` or `ZeroDivisionError`. -/
theorem pyFromTimestamp_errKinds (j : JVal) (e : PyErr)
    (h : pyFromTimestamp j = .error e) :
    e ≠ .attributeError ∧ e ≠ .zeroDivisionError := by
  unfold pyFromTimestamp fromtimestampQ at h
  repeat' split at h
  all_goals first
    | exact Except.noConfusion h
    | (injection h with h2; subst h2;
       exact ⟨(pyNum_errKinds _ _ ‹_›).1, (pyNum_errKinds _ _ ‹_›).2.1⟩)
    | (injection h with h2; subst h2; refine ⟨?_, ?_⟩ <;> simp)

theorem yahooCollect_step_errKinds (p1 v : JVal) (ps : List (JVal × JVal))
    (acc : List String × List ℚ) (e : PyErr)
    (ih : ∀ acc2 e2, yahooCollect ps acc2 = .error e2 →
      e2 ≠ .attributeError ∧ e2 ≠ .zeroDivisionError)
    (hbody : yahooCollect ((p1, v) :: ps) acc =
      match pyFromTimestamp p1 with
      | .error e => .error e
      | .ok d =>
        match pyRoundJ v 4 with
        | .error e => .error e
        | .ok cq => yahooCollect ps (acc.1 ++ [d], acc.2 ++ [cq]))
    (h : yahooCollect ((p1, v) :: ps) acc = .error e) :
    e ≠ .attributeError ∧ e ≠ .zeroDivisionError := by
  rw [hbody] at h
  repeat' split at h
  all_goals first
    | exact Except.noConfusion h
    | (injection h with h2; subst h2;
       first
         | exact pyFromTimestamp_errKinds _ _ ‹_›
         | exact ⟨(pyRoundJ_errKinds _ _ _ ‹_›).1, (pyRoundJ_errKinds _ _ _ ‹_›).2.1⟩)
    | exact ih _ _ h

theorem yahooCollect_errKinds (ps : List (JVal × JVal)) :
    ∀ acc e, yahooCollect ps acc = .error e →
      e ≠ .attributeError ∧ e ≠ .zeroDivisionError := by
  induction ps with
  | nil =>
    intro acc e h
    exact absurd h (by simp [yahooCollect])
  | cons p ps ih =>
    intro acc e h
    obtain ⟨p1, p2⟩ := p
    cases p2 with
    | null => exact ih acc e h
    | bool b => exact yahooCollect_step_errKinds p1 (.bool b) ps acc e ih rfl h
    | num q => exact yahooCollect_step_errKinds p1 (.num q) ps acc e ih rfl h
    | str s => exact yahooCollect_step_errKinds p1 (.str s) ps acc e ih rfl h
    | arr xs => exact yahooCollect_step_errKinds p1 (.arr xs) ps acc e ih rfl h
    | obj kvs => exact yahooCollect_step_errKinds p1 (.obj kvs) ps acc e ih rfl h

/-- Every error escaping `_yahoo_chart`'s `try:` block is a `KeyError`,
`IndexError`, `TypeError` or `ValueError` — never `AttributeError` or
`ZeroDivisionError`. -/
theorem yahooTry_errKinds (j : JVal) (e : PyErr) (h : yahooTry j = .error e) :
    e ≠ .attributeError ∧ e ≠ .zeroDivisionError := by
  unfold yahooTry at h
  repeat' split at h
  all_goals first
    | exact Except.noConfusion h
    | (injection h with h2; subst h2;
       first
         | exact ⟨(pySubscript_errKinds _ _ _ ‹_›).1, (pySubscript_errKinds _ _ _ ‹_›).2.1⟩
         | exact ⟨(pyIndex_errKinds _ _ _ ‹_›).1, (pyIndex_errKinds _ _ _ ‹_›).2.1⟩
         | exact ⟨(pyElems_errKinds _ _ ‹_›).1, (pyElems_errKinds _ _ ‹_›).2.1⟩
         | exact yahooCollect_errKinds _ _ _ ‹_›)

/-- `_yahoo_chart` either returns (a series or `None`) or raises the
uncaught `ValueError` of `datetime.fromtimestamp`; no other class escapes. -/
theorem yahoo_chart_ok_or_value (d : Option JVal) :
    (∃ r, _yahoo_chart d = .ok r) ∨ _yahoo_chart d = .error .valueError := by
  cases d with
  | none => exact Or.inl ⟨none, rfl⟩
  | some j =>
    by_cases ht : pyTruthy j
    · cases h : yahooTry j with
      | ok r => exact Or.inl ⟨r, by simp [_yahoo_chart, ht, h]⟩
      | error e =>
        have hk := yahooTry_errKinds j e h
        cases e with
        | keyError k => exact Or.inl ⟨none, by simp [_yahoo_chart, ht, h]⟩
        | indexError => exact Or.inl ⟨none, by simp [_yahoo_chart, ht, h]⟩
        | typeError => exact Or.inl ⟨none, by simp [_yahoo_chart, ht, h]⟩
        | attributeError => exact absurd rfl hk.1
        | zeroDivisionError => exact absurd rfl hk.2
        | valueError => exact Or.inr (by simp [_yahoo_chart, ht, h])
    · exact Or.inl ⟨none, by simp [_yahoo_chart, ht]⟩

/-- C5 (counterexample).  Both adapters can raise out of their callers: a
Polygon `results` entry lacking the `"t"` key makes `polygon_aggs` raise
`KeyError('t')` (propagating through `fetch_vix`), and a Yahoo chart whose
timestamp is in epoch *milliseconds* (1.7e12, year 55835) makes
`_yahoo_chart` raise the `ValueError` of `datetime.fromtimestamp`, which
its `except (KeyError, IndexError, TypeError)` does not catch. -/
theorem polygon_aggs_raises_on_malformed :
    polygon_aggs true (some (JVal.obj [("results", JVal.arr [JVal.obj []])])) =
      .error (.keyError "t") ∧
    fetch_vix true (some (JVal.obj [("results", JVal.arr [JVal.obj []])])) none =
      .error (.keyError "t") ∧
    _yahoo_chart (some (chartResponseTs 1700000000000 20)) = .error .valueError := by
  refine ⟨rfl, rfl, yahoo_chart_ts_value_error 1700000000000 20 ?_⟩
  simp only [fromtimestampQ]
  rw [if_pos (Or.inr (by norm_num))]

/-- C5 (amended).  `_yahoo_chart`'s `except (KeyError, IndexError,
TypeError)` turns every shape error of its parse into `None`, but the
`ValueError`/`OverflowError` of `datetime.fromtimestamp` on an
out-of-calendar-range timestamp is not in the clause and raises out of the
adapter; `polygon_aggs` has no exception handling at all, so a malformed
bar (missing `"t"`) raises `KeyError` out of it. -/
theorem adapters_error_behavior :
    (∀ d : Option JVal,
      (∃ r, _yahoo_chart d = .ok r) ∨ _yahoo_chart d = .error .valueError) ∧
    polygon_aggs true (some (JVal.obj [("results", JVal.arr [JVal.obj []])])) =
      .error (.keyError "t") :=
  ⟨yahoo_chart_ok_or_value, rfl⟩

/-! ## Metrics presence (claim C9) -/

theorem gatedEntry_spec (lo hi : ℚ) (x : Option TimeSeries) :
    (gatedEntry lo hi x = none ↔
      ∀ a, x = some a → a.values ≠ [] → ¬(lo < lastD a.values ∧ lastD a.values < hi)) ∧
    (∀ l, gatedEntry lo hi x = some l ↔
      ∃ a, x = some a ∧ a.values ≠ [] ∧ (lo < lastD a.values ∧ lastD a.values < hi) ∧
        l = last30 a.values) := by
  cases x with
  | none => simp [gatedEntry]
  | some a =>
    by_cases he : a.values = []
    · simp [gatedEntry, he]
    · by_cases hr : lo < lastD a.values ∧ lastD a.values < hi
      · simp [gatedEntry, he, hr]
        intro l
        constructor
        · intro h
          exact h.symm
        · intro h
          exact h.symm
      · simp [gatedEntry, he, hr]
        intro h
        exact not_lt.mp (fun hc => hr ⟨h, hc⟩)

theorem plainEntry_spec (x : Option TimeSeries) :
    (plainEntry x = none ↔ ∀ a, x = some a → a.values = []) ∧
    (∀ l, plainEntry x = some l ↔
      ∃ a, x = some a ∧ a.values ≠ [] ∧ l = last30 a.values) := by
  cases x with
  | none => simp [plainEntry]
  | some a =>
    by_cases he : a.values = []
    · simp [plainEntry, he]
    · simp [plainEntry, he]
      intro l
      constructor
      · intro h
        exact h.symm
      · intro h
        exact h.symm

/-- C9.  An indicator key is present in the metrics object exactly when its
resolver returned a non-empty series whose last value passes the final range
check (`(5,100)` for VIX, `(80,130)` for DXY, `(0.5,15)` for TNX,
`(20,200)` for CL; SPY and BTC have no final range check); when present it
holds exactly the series' last 30 values, and when every configured source
fails (all transports return no data) the resolvers produce `None`, hence
the key is absent — never null or a placeholder. -/
theorem metrics_presence_spec (spy vix dxy tnx btc oil : Option TimeSeries) :
    ((buildMetricsCore spy vix dxy tnx btc oil).VIX = none ↔
      ∀ a, vix = some a → a.values ≠ [] →
        ¬(5 < lastD a.values ∧ lastD a.values < 100)) ∧
    (∀ l, (buildMetricsCore spy vix dxy tnx btc oil).VIX = some l ↔
      ∃ a, vix = some a ∧ a.values ≠ [] ∧
        (5 < lastD a.values ∧ lastD a.values < 100) ∧ l = last30 a.values) ∧
    ((buildMetricsCore spy vix dxy tnx btc oil).DXY = none ↔
      ∀ a, dxy = some a → a.values ≠ [] →
        ¬(80 < lastD a.values ∧ lastD a.values < 130)) ∧
    (∀ l, (buildMetricsCore spy vix dxy tnx btc oil).DXY = some l ↔
      ∃ a, dxy = some a ∧ a.values ≠ [] ∧
        (80 < lastD a.values ∧ lastD a.values < 130) ∧ l = last30 a.values) ∧
    ((buildMetricsCore spy vix dxy tnx btc oil).TNX = none ↔
      ∀ a, tnx = some a → a.values ≠ [] →
        ¬(1/2 < lastD a.values ∧ lastD a.values < 15)) ∧
    (∀ l, (buildMetricsCore spy vix dxy tnx btc oil).TNX = some l ↔
      ∃ a, tnx = some a ∧ a.values ≠ [] ∧
        (1/2 < lastD a.values ∧ lastD a.values < 15) ∧ l = last30 a.values) ∧
    ((buildMetricsCore spy vix dxy tnx btc oil).CL = none ↔
      ∀ a, oil = some a → a.values ≠ [] →
        ¬(20 < lastD a.values ∧ lastD a.values < 200)) ∧
    (∀ l, (buildMetricsCore spy vix dxy tnx btc oil).CL = some l ↔
      ∃ a, oil = some a ∧ a.values ≠ [] ∧
        (20 < lastD a.values ∧ lastD a.values < 200) ∧ l = last30 a.values) ∧
    ((buildMetricsCore spy vix dxy tnx btc oil).SPY = none ↔
      ∀ a, spy = some a → a.values = []) ∧
    (∀ l, (buildMetricsCore spy vix dxy tnx btc oil).SPY = some l ↔
      ∃ a, spy = some a ∧ a.values ≠ [] ∧ l = last30 a.values) ∧
    ((buildMetricsCore spy vix dxy tnx btc oil).BTC = none ↔
      ∀ a, btc = some a → a.values = []) ∧
    (∀ l, (buildMetricsCore spy vix dxy tnx btc oil).BTC = some l ↔
      ∃ a, btc = some a ∧ a.values ≠ [] ∧ l = last30 a.values) ∧
    (∀ k : Bool, fetch_vix k none none = .ok none ∧
      fetch_dxy k none none none = .ok none ∧
      fetch_treasury_10y k none none none = .ok none ∧
      fetch_crude_oil k none none = .ok none ∧
      fetchWithYahooFallback k none none = .ok none) :=
  ⟨(gatedEntry_spec 5 100 vix).1, (gatedEntry_spec 5 100 vix).2,
   (gatedEntry_spec 80 130 dxy).1, (gatedEntry_spec 80 130 dxy).2,
   (gatedEntry_spec (1/2) 15 tnx).1, (gatedEntry_spec (1/2) 15 tnx).2,
   (gatedEntry_spec 20 200 oil).1, (gatedEntry_spec 20 200 oil).2,
   (plainEntry_spec spy).1, (plainEntry_spec spy).2,
   (plainEntry_spec btc).1, (plainEntry_spec btc).2,
   fun k => by cases k <;> exact ⟨rfl, rfl, rfl, rfl, rfl⟩⟩

/-- Witness for C9: a VIX series ending at 150 is omitted entirely; one
ending at 20 appears with exactly its last 30 (= all 1) values. -/
theorem metrics_presence_spec_witness :
    (buildMetricsCore none (some ⟨["d"], [150], [], false⟩) none none none none).VIX =
      none ∧
    (buildMetricsCore none (some ⟨["d"], [20], [], false⟩) none none none none).VIX =
      some [20] := by
  constructor
  · exact (metrics_presence_spec none (some ⟨["d"], [150], [], false⟩)
      none none none none).1.mpr (by
        rintro a ha _
        injection ha with ha2
        subst ha2
        norm_num [lastD])
  · exact ((metrics_presence_spec none (some ⟨["d"], [20], [], false⟩)
      none none none none).2.1 [20]).mpr
      ⟨⟨["d"], [20], [], false⟩, rfl, by simp, by norm_num [lastD], by simp [last30]⟩

/-! ## Watchlist signals (claim C10) -/

theorem stockSignal_spec (dp : JVal) (s : Direction) (h : stockSignal dp = .ok s) :
    (s = .BULLISH ↔ ∃ q : ℚ, dp = .num q ∧ 3/2 < q) ∧
    (s = .BEARISH ↔ ∃ q : ℚ, dp = .num q ∧ q < -(3/2)) ∧
    (s = .NEUTRAL ↔
      ¬(∃ q : ℚ, dp = .num q ∧ 3/2 < q) ∧ ¬(∃ q : ℚ, dp = .num q ∧ q < -(3/2))) := by
  cases dp with
  | num q =>
    by_cases h0 : q = 0
    · subst h0
      simp only [stockSignal, pyTruthy] at h
      norm_num at h
      subst h
      refine ⟨?_, ?_, ?_⟩ <;> simp <;> norm_num
    · by_cases hgt : 3/2 < q
      · have hs : s = .BULLISH := by
          simp only [stockSignal, pyTruthy, pyGT, pyLT, pyNum, bne_iff_ne, ne_eq, h0,
            not_false_iff, if_true, decide_eq_true hgt, Except.ok.injEq] at h
          exact h.symm
        subst hs
        refine ⟨by simp [hgt], ?_, ?_⟩
        · constructor
          · intro hc
            simp at hc
          · rintro ⟨q2, hq2, hlt⟩
            injection hq2 with h3
            subst h3
            linarith
        · constructor
          · intro hc
            simp at hc
          · rintro ⟨hc, _⟩
            exact absurd ⟨q, rfl, hgt⟩ hc
      · by_cases hlt : q < -(3/2)
        · have hs : s = .BEARISH := by
            simp only [stockSignal, pyTruthy, pyGT, pyLT, pyNum, bne_iff_ne, ne_eq, h0,
              not_false_iff, if_true, decide_eq_false hgt, decide_eq_true hlt,
              Except.ok.injEq] at h
            exact h.symm
          subst hs
          refine ⟨?_, by simp [hlt], ?_⟩
          · constructor
            · intro hc
              simp at hc
            · rintro ⟨q2, hq2, hgt2⟩
              injection hq2 with h3
              subst h3
              linarith
          · constructor
            · intro hc
              simp at hc
            · rintro ⟨_, hc⟩
              exact absurd ⟨q, rfl, hlt⟩ hc
        · have hs : s = .NEUTRAL := by
            simp only [stockSignal, pyTruthy, pyGT, pyLT, pyNum, bne_iff_ne, ne_eq, h0,
              not_false_iff, if_true, decide_eq_false hgt, decide_eq_false hlt,
              Except.ok.injEq] at h
            exact h.symm
          subst hs
          refine ⟨by simp; exact not_lt.mp hgt, by simp; exact not_lt.mp hlt, ?_⟩
          constructor
          · intro _
            constructor
            · rintro ⟨q2, hq2, hgt2⟩
              injection hq2 with h3
              subst h3
              exact hgt hgt2
            · rintro ⟨q2, hq2, hlt2⟩
              injection hq2 with h3
              subst h3
              exact hlt hlt2
          · intro _
            rfl
  | null =>
    simp only [stockSignal, pyTruthy] at h
    simp at h
    subst h
    simp
  | bool b =>
    cases b with
    | false =>
      simp only [stockSignal, pyTruthy] at h
      simp at h
      subst h
      simp
    | true =>
      simp only [stockSignal, pyTruthy, pyGT, pyLT, pyNum, if_true] at h
      norm_num at h
      subst h
      simp
  | str s2 =>
    by_cases he : s2.isEmpty
    · simp only [stockSignal, pyTruthy, he] at h
      simp at h
      subst h
      simp
    · simp only [stockSignal, pyTruthy, he, pyGT, pyNum] at h
      simp at h
  | arr xs =>
    cases xs with
    | nil =>
      simp only [stockSignal, pyTruthy] at h
      simp at h
      subst h
      simp
    | cons x xs2 =>
      simp only [stockSignal, pyTruthy, pyGT, pyNum] at h
      simp at h
  | obj kvs =>
    cases kvs with
    | nil =>
      simp only [stockSignal, pyTruthy] at h
      simp at h
      subst h
      simp
    | cons kv kvs2 =>
      simp only [stockSignal, pyTruthy, pyGT, pyNum] at h
      simp at h

theorem buildStocksAux_signals (k : Bool) (resp : String → Option JVal) :
    ∀ (syms : List String) (acc w : List Stock),
      buildStocksAux k resp syms acc = .ok w →
      ∀ st ∈ w, st ∈ acc ∨ stockSignal st.change_pct = .ok st.signal := by
  intro syms
  induction syms with
  | nil =>
    intro acc w h st hst
    simp only [buildStocksAux] at h
    injection h with h2
    subst h2
    exact Or.inl hst
  | cons sym rest ih =>
    intro acc w h st hst
    rw [buildStocksAux] at h
    cases hq : finnhub_quote k (resp sym) with
    | error e =>
      simp only [hq] at h
      exact absurd h (by simp)
    | ok oq =>
      cases oq with
      | none =>
        simp only [hq] at h
        exact ih acc w h st hst
      | some q =>
        cases hs : stockSignal q.change_pct with
        | error e =>
          simp only [hq, hs] at h
          exact absurd h (by simp)
        | ok sig =>
          simp only [hq, hs] at h
          rcases ih _ w h st hst with hin | hok
          · rcases List.mem_append.mp hin with hin2 | hin2
            · exact Or.inl hin2
            · right
              rw [List.mem_singleton] at hin2
              subst hin2
              exact hs
          · exact Or.inr hok

/-- C10.  Every stock emitted into the watchlist carries signal BULLISH
exactly when its `change_pct` is a number &gt; 1.5, BEARISH exactly when it is
a number &lt; −1.5, and NEUTRAL otherwise (including `null`, zero, or a
boolean). -/
theorem watchlist_signal_spec (k : Bool) (resp : String → Option JVal)
    (w : List Stock) (h : buildStocks k resp = .ok w) :
    ∀ st ∈ w,
      (st.signal = .BULLISH ↔ ∃ q : ℚ, st.change_pct = .num q ∧ 3/2 < q) ∧
      (st.signal = .BEARISH ↔ ∃ q : ℚ, st.change_pct = .num q ∧ q < -(3/2)) ∧
      (st.signal = .NEUTRAL ↔
        ¬(∃ q : ℚ, st.change_pct = .num q ∧ 3/2 < q) ∧
        ¬(∃ q : ℚ, st.change_pct = .num q ∧ q < -(3/2))) := by
  intro st hst
  rcases buildStocksAux_signals k resp WATCHLIST [] w h st hst with hin | hok
  · simp at hin
  · exact stockSignal_spec st.change_pct st.signal hok

/-- A Finnhub quote response: price 10, change 1, change_pct 2. -/
def wQuote : JVal :=
  .obj [("c", .num 10), ("d", .num 1), ("dp", .num 2), ("h", .num 11), ("l", .num 9),
        ("o", .num 10), ("pc", .num 9)]

def wResp (s : String) : Option JVal := if s = "TSLA" then some wQuote else none

/-- Witness for C10: a quote with `change_pct = 2 > 1.5` yields a BULLISH
watchlist entry. -/
theorem watchlist_signal_spec_witness :
    ((⟨"TSLA", JVal.num 10, JVal.num 2, JVal.null, Direction.BULLISH, ""⟩ : Stock).signal =
        Direction.BULLISH ↔
      ∃ q : ℚ,
        (⟨"TSLA", JVal.num 10, JVal.num 2, JVal.null, Direction.BULLISH, ""⟩ :
          Stock).change_pct = JVal.num q ∧ 3/2 < q) ∧
    (3/2 : ℚ) < 2 := by
  have h2ne : (2 : ℚ) ≠ 0 := by norm_num
  have h10ne : (10 : ℚ) ≠ 0 := by norm_num
  have hgt0 : (0 : ℚ) < 10 := by norm_num
  have hgt32 : (3/2 : ℚ) < 2 := by norm_num
  have hfq : finnhub_quote true (some wQuote) =
      .ok (some ⟨JVal.num 10, JVal.num 1, JVal.num 2, JVal.num 11, JVal.num 9,
        JVal.num 10, JVal.num 9⟩) := by
    simp only [finnhub_quote, wQuote, pyTruthy, pyGet, pySubscript, pyGT, pyNum,
      bne_iff_ne, ne_eq, h10ne, not_false_iff, decide_eq_true hgt0]
    rfl
  have hsig : stockSignal (JVal.num 2) = .ok .BULLISH := by
    simp [stockSignal, pyTruthy, pyGT, pyNum, bne_iff_ne, h2ne, decide_eq_true hgt32]
  have hstocks : buildStocks true wResp =
      .ok [⟨"TSLA", JVal.num 10, JVal.num 2, JVal.null, Direction.BULLISH, ""⟩] := by
    simp [buildStocks, WATCHLIST, buildStocksAux, wResp, hfq, hsig,
      (show finnhub_quote true none = Except.ok none from rfl)]
  exact ⟨(watchlist_signal_spec true wResp _ hstocks _ (by simp)).1, hgt32⟩

/-! ## Determinism of the pipeline modulo the clock (claim C4) -/

/-- An upstream where every transport request fails. -/
def deadUpstream : Upstream :=
  ⟨none, none, none, none, none, none, none, none, none, none, none, none, none, none,
   fun _ => none⟩

def noKeysConfig : Config := ⟨false, false⟩

/-- C4 (counterexample).  Two runs over identical upstream responses, at
clock readings differing only in the pretty-printed time: every
`last_updated` stamp agrees, yet `macro.json`'s `notes` array differs — its
final entry embeds the run time ("Last run: … ET"). -/
theorem pipeline_last_run_note_differs :
    (main_run noKeysConfig deadUpstream ⟨"2024-01-01T00:00:00", "09:00 AM"⟩).map
        (fun o => o.contextOut.notes) ≠
      (main_run noKeysConfig deadUpstream ⟨"2024-01-01T00:00:00", "10:00 AM"⟩).map
        (fun o => o.contextOut.notes) ∧
    (main_run noKeysConfig deadUpstream ⟨"2024-01-01T00:00:00", "09:00 AM"⟩).map
        (fun o => o.contextOut.last_updated) =
      (main_run noKeysConfig deadUpstream ⟨"2024-01-01T00:00:00", "10:00 AM"⟩).map
        (fun o => o.contextOut.last_updated) :=
  ⟨by decide, rfl⟩

/-- C4 (amended).  For a fixed configuration and a fixed set of upstream
responses, two runs at different clock readings produce identical outputs
except for the `last_updated` stamps **and the final "Last run" note inside
`macro.json`'s `notes` array** (which also embeds the clock). -/
theorem pipeline_clock_independence (cfg : Config) (u : Upstream) (c1 c2 : Clock) :
    (main_run cfg u c1).map stripClock = (main_run cfg u c2).map stripClock := by
  unfold main_run
  cases mainCore cfg u with
  | error e => rfl
  | ok c =>
    simp only [Except.map]
    unfold stripClock assembleOutputs
    simp only [List.dropLast_concat]

end PulseForge
